import Mathlib

/-!
Shallow embedding of the data-refresh engine of the `estonian_air_quality`
integration, translated from
`custom_components/estonian_air_quality/coordinator.py` together with the
static catalog constants it uses from
`custom_components/estonian_air_quality/const.py`.

Modelling conventions:
* Calendar dates are embedded as integer day numbers (`Int`).  The Python
  code formats dates with `strftime("%d.%m.%Y")` and parses them back with
  `strptime`; since that pair is a bijection between dates and the strings
  the code passes around, the embedding identifies a formatted date string
  with its day number, and `datetime.timedelta(days = n)` subtraction
  becomes integer subtraction.  `fmtDate` stands for the `%d.%m.%Y`
  rendering inside the request URL.
* Python dicts are embedded as association lists with dict semantics:
  updating an existing key keeps its position, a new key is appended at the
  end (insertion order), exactly as CPython dicts behave.
* The network is embedded as an oracle mapping each outbound request and
  attempt number to the outcome of that single `session.get` attempt.
* Wall-clock timestamp strings (`datetime.now().isoformat()` and
  `strftime("%Y-%m-%d %H:%M:%S")`) are opaque inputs `nowIso` / `nowHms`.
* Every HTTP attempt and every `asyncio.sleep` is recorded in an event
  trace so that theorems can speak about which calls were issued.
-/

namespace EstonianAirQuality

/-- `coordinator.py` line 30: number of days to look back for historical data. -/
def MAX_HISTORICAL_DAYS : Nat := 7

/-- `coordinator.py` line 32: maximum retries for API requests. -/
def MAX_RETRIES : Nat := 3

/-- `coordinator.py` line 34: default timeout for API requests in seconds. -/
def DEFAULT_TIMEOUT : Nat := 30

/-- `coordinator.py` line 36: extended data window (days). -/
def EXTENDED_DATA_WINDOW : Nat := 3

/-- `const.py`: base URL for fetching air quality data. -/
def BASE_URL : String := "https://ohuseire.ee/api/monitoring/en"

/-- `const.py`: the air-quality data type key. -/
def DATA_TYPE_AIR_QUALITY : String := "airquality"

/-- `const.py`: the pollen data type key. -/
def DATA_TYPE_POLLEN : String := "pollen"

/-- `const.py`: the radiation data type key. -/
def DATA_TYPE_RADIATION : String := "radiation"

/-- `const.py`: mapping from data type to the upstream `type` query tag. -/
def DATA_TYPE_TO_API_TYPE : List (String × String) :=
  [(DATA_TYPE_AIR_QUALITY, "INDICATOR"),
   (DATA_TYPE_POLLEN, "POLLEN"),
   (DATA_TYPE_RADIATION, "RADIATION")]

/-- Dict lookup (`m[key]` / `key in m`), embedded on association lists. -/
def lookupAssoc {α β : Type} [DecidableEq α] : List (α × β) → α → Option β
  | [], _ => none
  | (k, v) :: rest, key => if k = key then some v else lookupAssoc rest key

/-- Dict assignment `m[key] = v`: existing keys keep their position, a new
key is appended at the end, as in CPython insertion-ordered dicts. -/
def setAssoc {α β : Type} [DecidableEq α] : List (α × β) → α → β → List (α × β)
  | [], key, v => [(key, v)]
  | (k, w) :: rest, key, v =>
    if k = key then (k, v) :: rest else (k, w) :: setAssoc rest key v

/-- The idiom `if key not in m: m[key] = dflt` followed by a mutation of
`m[key]`, embedded as a single update-with-default operation. -/
def updAssoc {α β : Type} [DecidableEq α] (dflt : β) : List (α × β) → α → (β → β) → List (α × β)
  | [], key, f => [(key, f dflt)]
  | (k, w) :: rest, key, f =>
    if k = key then (k, f w) :: rest else (k, w) :: updAssoc dflt rest key f

/-- One per-category entry of `self.api_status` (a Python dict with up to
four keys, each absent until first written). -/
structure ApiStatusEntry where
  status : Option String := none
  error : Option String := none
  http_status : Option Nat := none
  last_checked : Option String := none
deriving Repr, DecidableEq

/-- `self.api_status`: data type → diagnostics entry. -/
abbrev ApiStatusMap : Type := List (String × ApiStatusEntry)

/-- The `if data_type not in self.api_status: self.api_status[data_type] = {}`
pattern followed by field mutation. -/
def updStatus (m : ApiStatusMap) (dataType : String) (f : ApiStatusEntry → ApiStatusEntry) : ApiStatusMap :=
  updAssoc {} m dataType f

/-- One well-formed record of the upstream JSON array (fields `indicator`,
`measured`, `value`, `station`).  A 200 response whose records lack one of
these keys raises `KeyError` in the Python loop and is represented by the
`AttemptOutcome.exn` outcome instead. -/
structure ApiRecord where
  indicator : Nat
  measured : String
  value : String
  station : Nat
deriving Repr, DecidableEq

/-- One measurement dict as built in `_fetch_data_for_date_range`
lines 233-241, with the engine-added provenance fields. -/
structure Measurement where
  measured : String
  value : String
  station : Nat
  last_checked : String
  fetch_date : Int
  status : String
  returned_code : String
deriving Repr, DecidableEq

/-- A per-category result: indicator id → list of measurements, in dict
insertion order (`result` in `_fetch_data_for_date_range`). -/
abbrev CategoryResult : Type := List (Nat × List Measurement)

/-- Appends one parsed record to the grouped result, creating the
indicator's entry on first sight (lines 228-241). -/
def addRecord (res : CategoryResult) (item : ApiRecord) (nowHms : String) (endDate : Int) : CategoryResult :=
  let meas : Measurement :=
    { measured := item.measured
      value := item.value
      station := item.station
      last_checked := nowHms
      fetch_date := endDate
      status := "success"
      returned_code := "station_" ++ toString item.station }
  match res with
  | [] => [(item.indicator, [meas])]
  | (k, vs) :: rest =>
    if k = item.indicator then (k, vs ++ [meas]) :: rest
    else (k, vs) :: addRecord rest item nowHms endDate

/-- The record-grouping loop over the decoded JSON array (lines 226-241). -/
def processRecords (records : List ApiRecord) (nowHms : String) (endDate : Int) : CategoryResult :=
  records.foldl (fun res item => addRecord res item nowHms endDate) []

/-- The `%d.%m.%Y` rendering of an embedded day number, as interpolated
into the request URL. -/
def fmtDate (d : Int) : String := toString d

/-- One outbound request, i.e. the query parameters interpolated into the
URL f-string of `_fetch_data_for_date_range` line 183. -/
structure Request where
  stations : String
  indicators : String
  rangeStart : Int
  rangeEnd : Int
  type : String
deriving Repr, DecidableEq

/-- The URL f-string of line 183. -/
def buildUrl (r : Request) : String :=
  BASE_URL ++ "?stations=" ++ r.stations ++ "&indicators=" ++ r.indicators ++
    "&range=" ++ fmtDate r.rangeStart ++ "," ++ fmtDate r.rangeEnd ++ "&type=" ++ r.type

/-- Outcome of one `session.get` attempt, as discriminated by the Python
`try`/`except` structure of lines 190-295:
* `ok records` — HTTP 200 whose body decoded (possibly via the Latin-1
  fallback) into a well-formed JSON array;
* `non200 code` — a response with status `code ≠ 200`;
* `timeout` — `asyncio.TimeoutError`;
* `decodeFail` — HTTP 200 but both the primary and the Latin-1 decode of
  the body failed (lines 209-223);
* `exn msg` — any other exception raised inside the attempt body
  (transport errors, malformed records, malformed caller input, ...),
  landing in the generic `except Exception` clause of line 279. -/
inductive AttemptOutcome where
  | ok (records : List ApiRecord)
  | non200 (code : Nat)
  | timeout
  | decodeFail
  | exn (msg : String)
deriving Repr, DecidableEq

/-- The environment: the outcome each (request, attempt-number) pair would
produce if issued. -/
abbrev Oracle : Type := Request → Nat → AttemptOutcome

/-- Instrumentation: one HTTP GET (`session.get`, with the issuing data
type, the request and the attempt number) or one `asyncio.sleep`. -/
inductive FetchEvent where
  | attempt (dataType : String) (req : Request) (idx : Nat)
  | sleep (seconds : Nat)
deriving Repr, DecidableEq

/-- Output of the retried fetch: the grouped result, the updated
`self.api_status`, and the trace of HTTP attempts and sleeps. -/
structure FetchResult where
  result : CategoryResult
  apiStatus : ApiStatusMap
  events : List FetchEvent
deriving Repr, DecidableEq

/-- The `while retries < MAX_RETRIES` loop of `_fetch_data_for_date_range`
(lines 190-298), by recursion on the number of attempts still allowed;
`idx` is the current value of the `retries` counter.  Every failure path
increments the counter, sleeps 2 seconds if attempts remain, and finally
returns an empty result; no exception escapes the loop. -/
def fetchAttempts (o : Oracle) (dataType : String) (req : Request) (nowHms : String) :
    Nat → Nat → ApiStatusMap → FetchResult
  | 0, _, st => ⟨[], st, []⟩
  | remaining + 1, idx, st =>
    match o req idx with
    | .ok records =>
      ⟨processRecords records nowHms req.rangeEnd, st, [.attempt dataType req idx]⟩
    | .non200 code =>
      let st1 := updStatus st dataType (fun e => { e with http_status := some code })
      if remaining = 0 then ⟨[], st1, [.attempt dataType req idx]⟩
      else
        let r := fetchAttempts o dataType req nowHms remaining (idx + 1) st1
        ⟨r.result, r.apiStatus, .attempt dataType req idx :: .sleep 2 :: r.events⟩
    | .timeout =>
      let st1 := updStatus st dataType (fun e => { e with status := some "timeout" })
      if remaining = 0 then ⟨[], st1, [.attempt dataType req idx]⟩
      else
        let r := fetchAttempts o dataType req nowHms remaining (idx + 1) st1
        ⟨r.result, r.apiStatus, .attempt dataType req idx :: .sleep 2 :: r.events⟩
    | .decodeFail =>
      if remaining = 0 then ⟨[], st, [.attempt dataType req idx]⟩
      else
        let r := fetchAttempts o dataType req nowHms remaining (idx + 1) st
        ⟨r.result, r.apiStatus, .attempt dataType req idx :: .sleep 2 :: r.events⟩
    | .exn msg =>
      let st1 := updStatus st dataType
        (fun e => { e with status := some "error", error := some msg })
      if remaining = 0 then ⟨[], st1, [.attempt dataType req idx]⟩
      else
        let r := fetchAttempts o dataType req nowHms remaining (idx + 1) st1
        ⟨r.result, r.apiStatus, .attempt dataType req idx :: .sleep 2 :: r.events⟩

/-- `_fetch_data_for_date_range` (lines 180-298): build the request from
the arguments (line 182-183) and run the retry loop. -/
def fetch_data_for_date_range (o : Oracle) (dataType stationId indicatorStr : String)
    (startDate endDate : Int) (nowHms : String) (st : ApiStatusMap) : FetchResult :=
  let apiType := (lookupAssoc DATA_TYPE_TO_API_TYPE dataType).getD "INDICATOR"
  fetchAttempts o dataType ⟨stationId, indicatorStr, startDate, endDate, apiType⟩ nowHms MAX_RETRIES 0 st

/-- One entry of the hardcoded station tables of `const.py`. -/
structure StationInfo where
  id : Nat
  name : String
  indicators : List Nat
deriving Repr, DecidableEq

/-- `const.py`: `AIR_QUALITY_STATIONS`. -/
def AIR_QUALITY_STATIONS : List (Int × StationInfo) :=
  [(1, ⟨1, "Kohtla-Järve", [11, 1, 3, 4, 21, 23, 6, 34, 37, 41]⟩),
   (3, ⟨3, "Lahemaa", [1, 3, 4, 6, 13, 23, 34, 37, 41]⟩),
   (4, ⟨4, "Narva", [1, 3, 4, 6, 11, 21, 23, 34, 37, 41]⟩),
   (5, ⟨5, "Liivalaia", [21, 23, 3, 4, 6, 1]⟩),
   (6, ⟨6, "Rahu", [1, 3, 4, 6, 21, 11]⟩),
   (7, ⟨7, "Õismäe", [1, 3, 4, 6, 14, 16, 18, 21, 23]⟩),
   (8, ⟨8, "Tartu", [21, 23, 4, 3, 1, 6, 37, 41, 66]⟩),
   (9, ⟨9, "Vilsandi", [1, 3, 6, 23, 34, 37, 41, 81, 82]⟩),
   (10, ⟨10, "Saarejärve", [1, 3, 6, 23, 34, 37, 41]⟩),
   (16, ⟨16, "Paldiski", [8, 14, 16, 18, 34, 37, 41]⟩),
   (21, ⟨21, "Sillamäe", [8, 10, 11, 14, 16, 18, 20, 21, 23, 34, 37, 41]⟩),
   (33, ⟨33, "Tahkuse", [1, 3, 6, 11, 68, 69]⟩),
   (38, ⟨38, "Sinimäe", [1, 8, 11, 21, 23, 31, 34, 37, 41]⟩),
   (40, ⟨40, "VKG", [1, 11, 34, 37, 41]⟩),
   (41, ⟨41, "Sillamäe 2", [10, 34, 37, 41]⟩),
   (44, ⟨44, "Kiviõli", [8, 11, 21, 34, 37, 41, 1]⟩)]

/-- `const.py`: `POLLEN_STATIONS`. -/
def POLLEN_STATIONS : List (Int × StationInfo) :=
  [(23, ⟨23, "Tallinn", [48, 51, 59, 49, 57, 47, 62, 44]⟩),
   (25, ⟨25, "Tartu", [48, 51, 59, 49, 57, 47, 62, 44]⟩),
   (27, ⟨27, "Pärnu", [48, 51, 59, 49, 57, 47, 62, 44]⟩),
   (29, ⟨29, "Jõhvi", [48, 51, 59, 49, 57, 47, 62, 44]⟩),
   (31, ⟨31, "Kuressaare", [48, 51, 59, 49, 57, 47, 62, 44]⟩)]

/-- `const.py`: `RADIATION_STATIONS`. -/
def RADIATION_STATIONS : List (Int × StationInfo) :=
  [(45, ⟨45, "Kunda kiirgus", [80]⟩),
   (46, ⟨46, "Kuusiku kiirgus", [80]⟩),
   (47, ⟨47, "Lääne Nigula kiirgus", [80]⟩),
   (48, ⟨48, "Mustvee kiirgus", [80]⟩),
   (49, ⟨49, "Narva kiirgus", [80]⟩),
   (50, ⟨50, "Pärnu kiirgus", [80]⟩),
   (51, ⟨51, "Ristna kiirgus", [80]⟩),
   (52, ⟨52, "Sõrve radiation", [80]⟩),
   (53, ⟨53, "Tallinna kiirgus", [80]⟩),
   (54, ⟨54, "Tõravere radiation", [80]⟩),
   (55, ⟨55, "Türi radiation", [80]⟩),
   (56, ⟨56, "Väike-Maarja kiirgus", [80]⟩),
   (57, ⟨57, "Valga kiirgus", [80]⟩),
   (58, ⟨58, "Võru radiation", [80]⟩),
   (59, ⟨59, "Viljandi kiirgus", [80]⟩)]

/-- `const.py`: `STATIONS`, the combined static catalog. -/
def STATIONS : List (String × List (Int × StationInfo)) :=
  [(DATA_TYPE_AIR_QUALITY, AIR_QUALITY_STATIONS),
   (DATA_TYPE_POLLEN, POLLEN_STATIONS),
   (DATA_TYPE_RADIATION, RADIATION_STATIONS)]

/-- Digit-string accumulator for `parsePyInt`. -/
def parseDigitsAux : List Char → Nat → Option Nat
  | [], acc => some acc
  | c :: rest, acc =>
    if c.isDigit then parseDigitsAux rest (acc * 10 + (c.toNat - 48)) else none

/-- A non-empty all-digit character list as a number. -/
def parseDigits : List Char → Option Nat
  | [] => none
  | l => parseDigitsAux l 0

/-- Python's `int(str)` on the station-id strings this integration passes
around: an optional minus sign followed by decimal digits; anything else
raises `ValueError` (the `none` case). -/
def parsePyInt (s : String) : Option Int :=
  match s.data with
  | '-' :: rest => (parseDigits rest).map (fun n => -(n : Int))
  | l => (parseDigits l).map (fun n => (n : Int))

/-- `get_station_indicators` (lines 300-307): `int(station_id)` may raise
`ValueError` (embedded as the error case); otherwise look the station up in
the static catalog, returning `[]` when either key is absent. -/
def get_station_indicators (dataType stationId : String) : Except String (List Nat) :=
  match parsePyInt stationId with
  | none => Except.error ("invalid literal for int() with base 10: " ++ stationId)
  | some sid =>
    match lookupAssoc STATIONS dataType with
    | some stationTable =>
      match lookupAssoc stationTable sid with
      | some info => Except.ok info.indicators
      | none => Except.ok []
    | none => Except.ok []

/-- The emptiness test of lines 145 and 163:
`result and any(values for values in result.values() if values)`. -/
def hasValidData (r : CategoryResult) : Bool :=
  !r.isEmpty && r.any (fun kv => !kv.2.isEmpty)

/-- Result of the backward day-by-day walk: the first non-empty result and
the end date of its window, if any, plus the status map and event trace. -/
structure FallbackLoopOut where
  found : Option (CategoryResult × Int)
  apiStatus : ApiStatusMap
  events : List FetchEvent
deriving Repr

/-- The `for days_back in range(EXTENDED_DATA_WINDOW + 1, MAX_HISTORICAL_DAYS + 1)`
loop of `_fetch_with_historical_fallback` (lines 153-166): each step queries
the window `(today - days_back, today - (days_back - EXTENDED_DATA_WINDOW))`
and stops at the first result with valid data. -/
def fallbackLoop (o : Oracle) (dataType stationId indicatorStr : String) (t : Int) (nowHms : String) :
    List Nat → ApiStatusMap → FallbackLoopOut
  | [], st => ⟨none, st, []⟩
  | daysBack :: rest, st =>
    let endDate : Int := t - ((daysBack : Int) - (EXTENDED_DATA_WINDOW : Int))
    let startDate : Int := t - (daysBack : Int)
    let fr := fetch_data_for_date_range o dataType stationId indicatorStr startDate endDate nowHms st
    if hasValidData fr.result then ⟨some (fr.result, endDate), fr.apiStatus, fr.events⟩
    else
      let lo := fallbackLoop o dataType stationId indicatorStr t nowHms rest fr.apiStatus
      ⟨lo.found, lo.apiStatus, fr.events ++ lo.events⟩

/-- The list of `days_back` values visited by the loop: `[4, 5, 6, 7]`. -/
def daysBackRange : List Nat :=
  List.range' (EXTENDED_DATA_WINDOW + 1) (MAX_HISTORICAL_DAYS - EXTENDED_DATA_WINDOW)

/-- Output of the historical-fallback search: the category result, the
updated `self.api_status`, the updated `self.last_successful_dates`, and
the event trace. -/
structure FallbackResult where
  result : CategoryResult
  apiStatus : ApiStatusMap
  lastSuccessfulDates : List (String × Int)
  events : List FetchEvent
deriving Repr

/-- `_fetch_with_historical_fallback` (lines 139-178).  `startDate, endDate`
are the arguments of the call; `t` is `datetime.datetime.now()` as used by
the loop (the caller passes `endDate = t`).  First tries the given window;
on valid data records `endDate` as last successful date.  Otherwise walks
`daysBackRange`; on a hit records that window's end date.  Otherwise, if a
prior last successful date exists, re-fetches the window ending there and
returns whatever it yields without touching `last_successful_dates`;
otherwise returns an empty result. -/
def fetch_with_historical_fallback (o : Oracle) (dataType stationId indicatorStr : String)
    (startDate endDate t : Int) (nowHms : String) (st : ApiStatusMap)
    (lsd : List (String × Int)) : FallbackResult :=
  let fr := fetch_data_for_date_range o dataType stationId indicatorStr startDate endDate nowHms st
  if hasValidData fr.result then
    ⟨fr.result, fr.apiStatus, setAssoc lsd dataType endDate, fr.events⟩
  else
    let lo := fallbackLoop o dataType stationId indicatorStr t nowHms daysBackRange fr.apiStatus
    match lo.found with
    | some (r, e) => ⟨r, lo.apiStatus, setAssoc lsd dataType e, fr.events ++ lo.events⟩
    | none =>
      match lookupAssoc lsd dataType with
      | some lastDate =>
        let fr2 := fetch_data_for_date_range o dataType stationId indicatorStr
          (lastDate - (EXTENDED_DATA_WINDOW : Int)) lastDate nowHms lo.apiStatus
        ⟨fr2.result, fr2.apiStatus, lsd, fr.events ++ lo.events ++ fr2.events⟩
      | none => ⟨[], lo.apiStatus, lsd, fr.events ++ lo.events⟩

/-- The aggregate `data` dict returned by one cycle: data type → result. -/
abbrev Snapshot : Type := List (String × CategoryResult)

/-- The mutable coordinator attributes relevant to a refresh cycle
(`__init__` lines 56-60), plus `self.data`, the previous snapshot retained
by the host `DataUpdateCoordinator` (`None` before any successful cycle). -/
structure CoordState where
  lastSuccessfulDates : List (String × Int)
  lastCheckedDates : List (String × Int)
  apiStatus : ApiStatusMap
  data : Option Snapshot
deriving Repr

/-- A Python exception escaping the cycle body, discriminated the way the
`except` clauses of `_async_update_data` lines 110 and 124 do:
`aiohttp.ClientError` versus any other `Exception`. -/
inductive PyExn where
  | clientError (msg : String)
  | other (msg : String)
deriving Repr, DecidableEq

/-- The `for data_type in self.data_types` loop of `_async_update_data`
(lines 74-106).  Returns the aggregated snapshot or the exception that
escaped, together with the coordinator state and event trace at that point
(mutations made for earlier categories persist when a later step raises).
A missing `self.stations[data_type]` key raises `KeyError`; an unparsable
station id raises `ValueError` inside `get_station_indicators`; both are
plain `Exception`s, not `aiohttp.ClientError`. -/
def cycleLoop (o : Oracle) (stations : List (String × String)) (t : Int) (nowIso nowHms : String) :
    List String → Snapshot → CoordState → (Except PyExn Snapshot) × CoordState × List FetchEvent
  | [], data, s => (Except.ok data, s, [])
  | dt :: rest, data, s =>
    match lookupAssoc stations dt with
    | none => (Except.error (PyExn.other ("KeyError: " ++ dt)), s, [])
    | some stationId =>
      match get_station_indicators dt stationId with
      | Except.error msg => (Except.error (PyExn.other msg), s, [])
      | Except.ok indicators =>
        if indicators.isEmpty then
          cycleLoop o stations t nowIso nowHms rest data s
        else
          let indicatorStr := String.intercalate "," (indicators.map (fun i => toString i))
          let step :=
            if dt = DATA_TYPE_POLLEN then
              let fb := fetch_with_historical_fallback o dt stationId indicatorStr
                (t - (EXTENDED_DATA_WINDOW : Int)) t t nowHms s.apiStatus s.lastSuccessfulDates
              (fb.result, fb.apiStatus, fb.lastSuccessfulDates, fb.events)
            else
              let fr := fetch_data_for_date_range o dt stationId indicatorStr
                (t - (EXTENDED_DATA_WINDOW : Int)) t nowHms s.apiStatus
              (fr.result, fr.apiStatus, s.lastSuccessfulDates, fr.events)
          let res := step.1
          let lcd1 := setAssoc s.lastCheckedDates dt t
          let st2 := updStatus step.2.1 dt (fun e => { e with last_checked := some nowIso })
          let st3 :=
            if res.isEmpty then updStatus st2 dt (fun e => { e with status := some "no_data" })
            else updStatus st2 dt (fun e => { e with status := some "success" })
          let out := cycleLoop o stations t nowIso nowHms rest (setAssoc data dt res)
            { s with lastSuccessfulDates := step.2.2.1, lastCheckedDates := lcd1, apiStatus := st3 }
          (out.1, out.2.1, step.2.2.2 ++ out.2.2)

/-- What one call of `refresh` produces: either the snapshot to publish or
the message of the raised `UpdateFailed`, with the final coordinator state
and the trace of HTTP activity. -/
structure CycleOutput where
  outcome : Except String Snapshot
  state : CoordState
  events : List FetchEvent
deriving Repr

/-- The `for data_type in self.data_types` marking loop shared by both
`except` handlers of `_async_update_data` (lines 111-116 and 125-130). -/
def markAllError (dataTypes : List String) (st : ApiStatusMap) (statusVal msg nowIso : String) : ApiStatusMap :=
  match dataTypes with
  | [] => st
  | dt :: rest =>
    markAllError rest
      (updStatus st dt
        (fun e => { e with status := some statusVal, error := some msg, last_checked := some nowIso }))
      statusVal msg nowIso

/-- `_async_update_data` (lines 62-137): run the cycle body; on a raised
exception mark every configured data type's diagnostics (with status
`connection_error` for `aiohttp.ClientError`, `error` otherwise), then
return the previous snapshot when `self.data` is truthy, else raise
`UpdateFailed`. -/
def async_update_data (o : Oracle) (dataTypes : List String) (stations : List (String × String))
    (t : Int) (nowIso nowHms : String) (s : CoordState) : CycleOutput :=
  match cycleLoop o stations t nowIso nowHms dataTypes [] s with
  | (Except.ok data, s1, evs) => ⟨Except.ok data, s1, evs⟩
  | (Except.error e, s1, evs) =>
    let statusVal := match e with | .clientError _ => "connection_error" | .other _ => "error"
    let msg := match e with | .clientError m => m | .other m => m
    let failMsg := match e with
      | .clientError m => "Error communicating with API: " ++ m
      | .other m => "Unexpected error: " ++ m
    let s2 := { s1 with apiStatus := markAllError dataTypes s1.apiStatus statusVal msg nowIso }
    match s1.data with
    | some snap =>
      if snap.isEmpty then ⟨Except.error failMsg, s2, evs⟩ else ⟨Except.ok snap, s2, evs⟩
    | none => ⟨Except.error failMsg, s2, evs⟩

/-- Inputs that vary between scheduled invocations of one cycle. -/
structure CycleInput where
  oracle : Oracle
  t : Int
  nowIso : String
  nowHms : String

/-- One scheduled invocation as driven by the host `DataUpdateCoordinator`:
run `_async_update_data`; when it returns a snapshot the host stores it as
`self.data`, and on `UpdateFailed` the previous `self.data` is kept. -/
def applyCycle (dataTypes : List String) (stations : List (String × String))
    (inp : CycleInput) (s : CoordState) : CoordState :=
  let out := async_update_data inp.oracle dataTypes stations inp.t inp.nowIso inp.nowHms s
  match out.outcome with
  | Except.ok snap => { out.state with data := some snap }
  | Except.error _ => out.state

/-- The coordinator state right after `__init__` (lines 56-60): all
bookkeeping dicts empty, no previous snapshot. -/
def initialState : CoordState := ⟨[], [], [], none⟩

/-- A whole lifetime of scheduled cycles, oldest first. -/
def runCycles (dataTypes : List String) (stations : List (String × String)) :
    List CycleInput → CoordState → CoordState
  | [], s => s
  | inp :: rest, s => runCycles dataTypes stations rest (applyCycle dataTypes stations inp s)

/-- The request that `fetch_data_for_date_range` builds from its arguments
(lines 182-183). -/
def mkReq (dataType stationId indicatorStr : String) (startDate endDate : Int) : Request :=
  ⟨stationId, indicatorStr, startDate, endDate,
   (lookupAssoc DATA_TYPE_TO_API_TYPE dataType).getD "INDICATOR"⟩

/-- Observation: the category result of a fetch, which does not depend on
the incoming status map (see `fetch_result_indep`). -/
def fetchResultOf (o : Oracle) (dataType stationId indicatorStr : String)
    (startDate endDate : Int) (nh : String) : CategoryResult :=
  (fetch_data_for_date_range o dataType stationId indicatorStr startDate endDate nh []).result

/-- Observation: the event trace of a fetch, which does not depend on the
incoming status map (see `fetch_events_indep`). -/
def fetchEventsOf (o : Oracle) (dataType stationId indicatorStr : String)
    (startDate endDate : Int) (nh : String) : List FetchEvent :=
  (fetch_data_for_date_range o dataType stationId indicatorStr startDate endDate nh []).events

/-- Did this attempt hit one of the `except`/non-200 paths of the retry
loop (anything but a decoded 200 response)? -/
def isFail : AttemptOutcome → Bool
  | .ok _ => false
  | _ => true

/-- Number of HTTP GET attempts in a trace. -/
def countAttempts (evs : List FetchEvent) : Nat :=
  (evs.filter fun ev => match ev with | .attempt _ _ _ => true | _ => false).length

/-- Observation: the result of the initial extended-window fetch of the
historical fallback (window `today - EXTENDED_DATA_WINDOW .. today`). -/
def initResultOf (o : Oracle) (dtc sid istr : String) (t : Int) (nh : String) : CategoryResult :=
  fetchResultOf o dtc sid istr (t - (EXTENDED_DATA_WINDOW : Int)) t nh

/-- Observation: the event trace of the initial extended-window fetch of
the historical fallback. -/
def initEventsOf (o : Oracle) (dtc sid istr : String) (t : Int) (nh : String) : List FetchEvent :=
  fetchEventsOf o dtc sid istr (t - (EXTENDED_DATA_WINDOW : Int)) t nh

/-- Observation: the result of the backward-walk fetch at `days_back = db`
(window `today - db .. today - (db - EXTENDED_DATA_WINDOW)`). -/
def walkResultOf (o : Oracle) (dtc sid istr : String) (t : Int) (nh : String) (db : Nat) : CategoryResult :=
  fetchResultOf o dtc sid istr (t - (db : Int)) (t - ((db : Int) - (EXTENDED_DATA_WINDOW : Int))) nh

/-- Observation: the event trace of the backward-walk fetch at
`days_back = db`. -/
def walkEventsOf (o : Oracle) (dtc sid istr : String) (t : Int) (nh : String) (db : Nat) : List FetchEvent :=
  fetchEventsOf o dtc sid istr (t - (db : Int)) (t - ((db : Int) - (EXTENDED_DATA_WINDOW : Int))) nh

/-- Concatenation of the per-step traces over a list of walk steps. -/
def concatEvents (f : Nat → List FetchEvent) : List Nat → List FetchEvent
  | [] => []
  | db :: rest => f db ++ concatEvents f rest

/-- Scenario oracle: every request yields a decoded empty JSON array. -/
def oracleAllEmpty : Oracle := fun _ _ => AttemptOutcome.ok []

/-- Scenario oracle: every attempt raises a malformed-input exception (a
caller bug such as invalid arguments). -/
def oracleAllExn : Oracle := fun _ _ => AttemptOutcome.exn "ValueError: invalid arguments"

/-- Scenario oracle: every attempt receives an HTTP 503 response. -/
def oracleAll503 : Oracle := fun _ _ => AttemptOutcome.non200 503

/-- Scenario record: one PM2.5 reading from air-quality station 9. -/
def recPM25 : ApiRecord := ⟨23, "2026-10-12 09:00", "5.1", 9⟩

/-- Scenario record: one birch-pollen reading from pollen station 23. -/
def recBirch : ApiRecord := ⟨48, "2026-10-12 09:00", "7", 23⟩

/-- Scenario oracle: radiation requests always answer 503; any other
request yields one PM2.5 record on its first attempt. -/
def oracleRad503 : Oracle := fun req i =>
  if req.type = "RADIATION" then AttemptOutcome.non200 503
  else if i = 0 then AttemptOutcome.ok [recPM25]
  else AttemptOutcome.exn "unexpected"

/-- Scenario oracle: the window ending 2 days back (queried at
`days_back = 5`) yields one birch record; every other request is empty. -/
def oraclePollenDay5 : Oracle := fun req _ =>
  if req.rangeStart = -5 then AttemptOutcome.ok [recBirch] else AttemptOutcome.ok []

/-- Scenario oracle: the first attempt of any request yields one birch
record. -/
def oraclePollenOk : Oracle := fun _ i =>
  if i = 0 then AttemptOutcome.ok [recBirch] else AttemptOutcome.ok []

/-- The `status` value each handler of `_async_update_data` writes:
`connection_error` for `aiohttp.ClientError`, `error` otherwise. -/
def exnStatusVal : PyExn → String
  | PyExn.clientError _ => "connection_error"
  | PyExn.other _ => "error"

/-- The `str(error)` text recorded by the handlers. -/
def exnMsg : PyExn → String
  | PyExn.clientError m => m
  | PyExn.other m => m

/-- The message of the `UpdateFailed` each handler raises. -/
def exnFailMsg : PyExn → String
  | PyExn.clientError m => "Error communicating with API: " ++ m
  | PyExn.other m => "Unexpected error: " ++ m

/-- Scenario measurement retained in a previous cycle's snapshot. -/
def measOld : Measurement := ⟨"2026-10-02 09:00", "7", 23, "old", -10, "success", "station_23"⟩

/-- Scenario cached snapshot from a previous successful cycle. -/
def cachedSnap : Snapshot := [("pollen", [(48, [measOld])])]

theorem fetch_eq_attempts (o : Oracle) (dt sid istr : String) (sD eD : Int) (nh : String)
    (st : ApiStatusMap) :
    fetch_data_for_date_range o dt sid istr sD eD nh st =
      fetchAttempts o dt (mkReq dt sid istr sD eD) nh MAX_RETRIES 0 st := rfl

theorem lookupAssoc_setAssoc_self {α β : Type} [DecidableEq α] :
    ∀ (m : List (α × β)) (k : α) (v : β), lookupAssoc (setAssoc m k v) k = some v := by
  intro m k v
  induction m with
  | nil => simp [setAssoc, lookupAssoc]
  | cons a rest ih =>
    obtain ⟨a1, a2⟩ := a
    by_cases h : a1 = k <;> simp [setAssoc, h, lookupAssoc, ih]

theorem lookupAssoc_setAssoc_ne {α β : Type} [DecidableEq α] :
    ∀ (m : List (α × β)) (k : α) (v : β) (k' : α), k' ≠ k →
      lookupAssoc (setAssoc m k v) k' = lookupAssoc m k' := by
  intro m k v k' hne
  have hkk : ¬(k = k') := fun h => hne h.symm
  induction m with
  | nil => simp [setAssoc, lookupAssoc, hkk]
  | cons a rest ih =>
    obtain ⟨a1, a2⟩ := a
    by_cases h : a1 = k
    · subst h
      simp [setAssoc, lookupAssoc, hkk]
    · by_cases h2 : a1 = k' <;> simp [setAssoc, h, lookupAssoc, h2, ih, hne]

theorem lookupAssoc_updAssoc_self {α β : Type} [DecidableEq α] (dflt : β) :
    ∀ (m : List (α × β)) (k : α) (f : β → β),
      lookupAssoc (updAssoc dflt m k f) k = some (f ((lookupAssoc m k).getD dflt)) := by
  intro m k f
  induction m with
  | nil => simp [updAssoc, lookupAssoc]
  | cons a rest ih =>
    obtain ⟨a1, a2⟩ := a
    by_cases h : a1 = k <;> simp [updAssoc, h, lookupAssoc, ih]

theorem lookupAssoc_updAssoc_ne {α β : Type} [DecidableEq α] (dflt : β) :
    ∀ (m : List (α × β)) (k : α) (f : β → β) (k' : α), k' ≠ k →
      lookupAssoc (updAssoc dflt m k f) k' = lookupAssoc m k' := by
  intro m k f k' hne
  have hkk : ¬(k = k') := fun h => hne h.symm
  induction m with
  | nil => simp [updAssoc, lookupAssoc, hkk]
  | cons a rest ih =>
    obtain ⟨a1, a2⟩ := a
    by_cases h : a1 = k
    · subst h
      simp [updAssoc, lookupAssoc, hkk]
    · by_cases h2 : a1 = k' <;> simp [updAssoc, h, lookupAssoc, h2, ih, hne]

theorem fetchAttempts_indep (o : Oracle) (dt : String) (req : Request) (nh : String) :
    ∀ (n idx : Nat) (st st' : ApiStatusMap),
      (fetchAttempts o dt req nh n idx st).result = (fetchAttempts o dt req nh n idx st').result ∧
      (fetchAttempts o dt req nh n idx st).events = (fetchAttempts o dt req nh n idx st').events := by
  intro n
  induction n with
  | zero => intro idx st st'; exact ⟨rfl, rfl⟩
  | succ m ih =>
    intro idx st st'
    cases h : o req idx <;> simp only [fetchAttempts, h]
    all_goals (
      by_cases hm : m = 0
      · simp [hm]
      · simp [hm]
        all_goals exact ⟨(ih _ _ _).1, (ih _ _ _).2⟩)

theorem fetch_result_indep (o : Oracle) (dt sid istr : String) (sD eD : Int) (nh : String)
    (st : ApiStatusMap) :
    (fetch_data_for_date_range o dt sid istr sD eD nh st).result =
      fetchResultOf o dt sid istr sD eD nh := by
  rw [fetchResultOf, fetch_eq_attempts, fetch_eq_attempts]
  exact (fetchAttempts_indep o dt (mkReq dt sid istr sD eD) nh MAX_RETRIES 0 st []).1

theorem fetch_events_indep (o : Oracle) (dt sid istr : String) (sD eD : Int) (nh : String)
    (st : ApiStatusMap) :
    (fetch_data_for_date_range o dt sid istr sD eD nh st).events =
      fetchEventsOf o dt sid istr sD eD nh := by
  rw [fetchEventsOf, fetch_eq_attempts, fetch_eq_attempts]
  exact (fetchAttempts_indep o dt (mkReq dt sid istr sD eD) nh MAX_RETRIES 0 st []).2

theorem fetchAttempts_events_shape (o : Oracle) (dt : String) (req : Request) (nh : String) :
    ∀ (n idx : Nat) (st : ApiStatusMap) (ev : FetchEvent),
      ev ∈ (fetchAttempts o dt req nh n idx st).events →
      ev = FetchEvent.sleep 2 ∨ ∃ i, ev = FetchEvent.attempt dt req i := by
  intro n
  induction n with
  | zero => intro idx st ev hev; simp [fetchAttempts] at hev
  | succ m ih =>
    intro idx st ev hev
    cases h : o req idx <;> simp only [fetchAttempts, h] at hev
    case ok records =>
      simp at hev
      exact Or.inr ⟨idx, hev⟩
    all_goals (
      by_cases hm : m = 0
      · simp [hm] at hev
        exact Or.inr ⟨idx, hev⟩
      · simp [hm] at hev
        rcases hev with h1 | h1 | h1
        · exact Or.inr ⟨idx, h1⟩
        · exact Or.inl h1
        · exact ih (idx + 1) _ ev h1)

theorem addRecord_fetch_date :
    ∀ (res : CategoryResult) (item : ApiRecord) (nh : String) (d : Int),
      (∀ p ∈ res, ∀ m ∈ p.2, m.fetch_date = d) →
      ∀ p ∈ addRecord res item nh d, ∀ m ∈ p.2, m.fetch_date = d := by
  intro res
  induction res with
  | nil =>
    intro item nh d _ p hp m hm
    simp [addRecord] at hp
    subst hp
    simp at hm
    subst hm
    rfl
  | cons a rest ih =>
    intro item nh d hres p hp m hm
    obtain ⟨k, vs⟩ := a
    by_cases h : k = item.indicator
    · simp only [addRecord, h, if_true] at hp
      rcases List.mem_cons.mp hp with hp | hp
      · subst hp
        rcases List.mem_append.mp hm with hm | hm
        · exact hres (k, vs) (by simp) m hm
        · simp at hm
          subst hm
          rfl
      · exact hres p (by simp [hp]) m hm
    · simp only [addRecord, h, if_false] at hp
      rcases List.mem_cons.mp hp with hp | hp
      · subst hp
        exact hres (k, vs) (by simp) m hm
      · exact ih item nh d (fun q hq => hres q (by simp [hq])) p hp m hm

theorem processRecords_fetch_date_aux :
    ∀ (records : List ApiRecord) (acc : CategoryResult) (nh : String) (d : Int),
      (∀ p ∈ acc, ∀ m ∈ p.2, m.fetch_date = d) →
      ∀ p ∈ records.foldl (fun res item => addRecord res item nh d) acc,
        ∀ m ∈ p.2, m.fetch_date = d := by
  intro records
  induction records with
  | nil => intro acc nh d hacc p hp; exact hacc p hp
  | cons item rest ih =>
    intro acc nh d hacc
    exact ih (addRecord acc item nh d) nh d (addRecord_fetch_date acc item nh d hacc)

theorem processRecords_fetch_date (records : List ApiRecord) (nh : String) (d : Int) :
    ∀ p ∈ processRecords records nh d, ∀ m ∈ p.2, m.fetch_date = d :=
  processRecords_fetch_date_aux records [] nh d (by simp)

theorem fetchAttempts_fetch_date (o : Oracle) (dt : String) (req : Request) (nh : String) :
    ∀ (n idx : Nat) (st : ApiStatusMap),
      ∀ p ∈ (fetchAttempts o dt req nh n idx st).result, ∀ m ∈ p.2,
        m.fetch_date = req.rangeEnd := by
  intro n
  induction n with
  | zero => intro idx st p hp; simp [fetchAttempts] at hp
  | succ k ih =>
    intro idx st p hp
    cases h : o req idx <;> simp only [fetchAttempts, h] at hp
    case ok records =>
      exact processRecords_fetch_date records nh req.rangeEnd p hp
    all_goals (
      by_cases hm : k = 0
      · simp [hm] at hp
      · simp [hm] at hp
        exact ih (idx + 1) _ p hp)

theorem countAttempts_cons_attempt (d : String) (r : Request) (i : Nat) (evs : List FetchEvent) :
    countAttempts (FetchEvent.attempt d r i :: evs) = countAttempts evs + 1 := by
  simp [countAttempts]

theorem countAttempts_cons_sleep (s : Nat) (evs : List FetchEvent) :
    countAttempts (FetchEvent.sleep s :: evs) = countAttempts evs := by
  simp [countAttempts]

theorem fetchAttempts_allFail (o : Oracle) (dt : String) (req : Request) (nh : String) :
    ∀ (n idx : Nat) (st : ApiStatusMap),
      (∀ i, i < n → isFail (o req (idx + i)) = true) →
      (fetchAttempts o dt req nh n idx st).result = [] ∧
      countAttempts (fetchAttempts o dt req nh n idx st).events = n := by
  intro n
  induction n with
  | zero => intro idx st _; exact ⟨rfl, rfl⟩
  | succ k ih =>
    intro idx st hfail
    have h0 : isFail (o req idx) = true := by simpa using hfail 0 (Nat.succ_pos k)
    have hshift : ∀ i, i < k → isFail (o req (idx + 1 + i)) = true := by
      intro i hi
      have := hfail (i + 1) (by omega)
      have harg : idx + (i + 1) = idx + 1 + i := by omega
      rwa [harg] at this
    cases h : o req idx
    case ok records => simp [isFail, h] at h0
    all_goals (
      simp only [fetchAttempts, h]
      by_cases hm : k = 0
      · subst hm
        simp [countAttempts]
      · have key := fun st2 => ih (idx + 1) st2 hshift
        simp [hm, countAttempts_cons_attempt, countAttempts_cons_sleep, key])

theorem daysBackRange_eq : daysBackRange = [4, 5, 6, 7] := rfl

theorem fallbackLoop_events_shape (o : Oracle) (dtc sid istr : String) (t : Int) (nh : String) :
    ∀ (dbs : List Nat) (st : ApiStatusMap) (ev : FetchEvent),
      ev ∈ (fallbackLoop o dtc sid istr t nh dbs st).events →
      ev = FetchEvent.sleep 2 ∨
        ∃ db, db ∈ dbs ∧ ∃ i,
          ev = FetchEvent.attempt dtc
            (mkReq dtc sid istr (t - (db : Int))
              (t - ((db : Int) - (EXTENDED_DATA_WINDOW : Int)))) i := by
  intro dbs
  induction dbs with
  | nil => intro st ev hev; simp [fallbackLoop] at hev
  | cons db rest ih =>
    intro st ev hev
    simp only [fallbackLoop] at hev
    by_cases hv : hasValidData (fetch_data_for_date_range o dtc sid istr (t - (db : Int))
        (t - ((db : Int) - (EXTENDED_DATA_WINDOW : Int))) nh st).result
    · rw [if_pos hv] at hev
      simp only at hev
      rcases fetchAttempts_events_shape o dtc
          (mkReq dtc sid istr (t - (db : Int)) (t - ((db : Int) - (EXTENDED_DATA_WINDOW : Int))))
          nh MAX_RETRIES 0 st ev hev with h1 | ⟨i, h1⟩
      · exact Or.inl h1
      · exact Or.inr ⟨db, by simp, i, h1⟩
    · rw [if_neg hv] at hev
      simp only [List.mem_append] at hev
      rcases hev with hev | hev
      · rcases fetchAttempts_events_shape o dtc
            (mkReq dtc sid istr (t - (db : Int)) (t - ((db : Int) - (EXTENDED_DATA_WINDOW : Int))))
            nh MAX_RETRIES 0 st ev hev with h1 | ⟨i, h1⟩
        · exact Or.inl h1
        · exact Or.inr ⟨db, by simp, i, h1⟩
      · rcases ih _ ev hev with h1 | ⟨db2, hmem, i, h1⟩
        · exact Or.inl h1
        · exact Or.inr ⟨db2, by simp [hmem], i, h1⟩

theorem fallbackLoop_found_spec (o : Oracle) (dtc sid istr : String) (t : Int) (nh : String) :
    ∀ (dbs : List Nat) (st : ApiStatusMap) (r : CategoryResult) (e : Int),
      (fallbackLoop o dtc sid istr t nh dbs st).found = some (r, e) →
      ∃ db, db ∈ dbs ∧ e = t - ((db : Int) - (EXTENDED_DATA_WINDOW : Int)) ∧
        r = fetchResultOf o dtc sid istr (t - (db : Int)) e nh ∧ hasValidData r = true := by
  intro dbs
  induction dbs with
  | nil => intro st r e h; simp [fallbackLoop] at h
  | cons db rest ih =>
    intro st r e h
    simp only [fallbackLoop] at h
    by_cases hv : hasValidData (fetch_data_for_date_range o dtc sid istr (t - (db : Int))
        (t - ((db : Int) - (EXTENDED_DATA_WINDOW : Int))) nh st).result
    · rw [if_pos hv] at h
      simp only [Option.some.injEq, Prod.mk.injEq] at h
      obtain ⟨hr, he⟩ := h
      refine ⟨db, by simp, he.symm, ?_, ?_⟩
      · rw [← hr, ← he, fetch_result_indep]
      · rw [← hr]
        exact hv
    · rw [if_neg hv] at h
      simp only at h
      rcases ih _ r e h with ⟨db2, hmem, h1, h2, h3⟩
      exact ⟨db2, by simp [hmem], h1, h2, h3⟩

theorem fallback_events_shape (o : Oracle) (dtc sid istr : String) (sD eD t : Int) (nh : String)
    (st : ApiStatusMap) (lsd : List (String × Int)) :
    ∀ ev ∈ (fetch_with_historical_fallback o dtc sid istr sD eD t nh st lsd).events,
      ev = FetchEvent.sleep 2 ∨
      (∃ i, ev = FetchEvent.attempt dtc (mkReq dtc sid istr sD eD) i) ∨
      (∃ db, db ∈ daysBackRange ∧ ∃ i,
        ev = FetchEvent.attempt dtc
          (mkReq dtc sid istr (t - (db : Int)) (t - ((db : Int) - (EXTENDED_DATA_WINDOW : Int)))) i) ∨
      (∃ d, lookupAssoc lsd dtc = some d ∧ ∃ i,
        ev = FetchEvent.attempt dtc (mkReq dtc sid istr (d - (EXTENDED_DATA_WINDOW : Int)) d) i) := by
  intro ev hev
  simp only [fetch_with_historical_fallback] at hev
  by_cases hv : hasValidData (fetch_data_for_date_range o dtc sid istr sD eD nh st).result
  · rw [if_pos hv] at hev
    simp only at hev
    rcases fetchAttempts_events_shape o dtc (mkReq dtc sid istr sD eD) nh MAX_RETRIES 0 st ev hev with
      h1 | ⟨i, h1⟩
    · exact Or.inl h1
    · exact Or.inr (Or.inl ⟨i, h1⟩)
  · rw [if_neg hv] at hev
    rcases hfound : (fallbackLoop o dtc sid istr t nh daysBackRange
        (fetch_data_for_date_range o dtc sid istr sD eD nh st).apiStatus).found with _ | ⟨r, e⟩
    · rw [hfound] at hev
      rcases hlast : lookupAssoc lsd dtc with _ | d
      · rw [hlast] at hev
        simp only [List.mem_append] at hev
        rcases hev with hev | hev
        · rcases fetchAttempts_events_shape o dtc (mkReq dtc sid istr sD eD) nh MAX_RETRIES 0 st ev
              hev with h1 | ⟨i, h1⟩
          · exact Or.inl h1
          · exact Or.inr (Or.inl ⟨i, h1⟩)
        · rcases fallbackLoop_events_shape o dtc sid istr t nh daysBackRange _ ev hev with
            h1 | ⟨db, hmem, i, h1⟩
          · exact Or.inl h1
          · exact Or.inr (Or.inr (Or.inl ⟨db, hmem, i, h1⟩))
      · rw [hlast] at hev
        simp only [List.mem_append] at hev
        rcases hev with (hev | hev) | hev
        · rcases fetchAttempts_events_shape o dtc (mkReq dtc sid istr sD eD) nh MAX_RETRIES 0 st ev
              hev with h1 | ⟨i, h1⟩
          · exact Or.inl h1
          · exact Or.inr (Or.inl ⟨i, h1⟩)
        · rcases fallbackLoop_events_shape o dtc sid istr t nh daysBackRange _ ev hev with
            h1 | ⟨db, hmem, i, h1⟩
          · exact Or.inl h1
          · exact Or.inr (Or.inr (Or.inl ⟨db, hmem, i, h1⟩))
        · rcases fetchAttempts_events_shape o dtc (mkReq dtc sid istr (d - (EXTENDED_DATA_WINDOW : Int)) d)
              nh MAX_RETRIES 0 _ ev hev with h1 | ⟨i, h1⟩
          · exact Or.inl h1
          · exact Or.inr (Or.inr (Or.inr ⟨d, rfl, i, h1⟩))
    · rw [hfound] at hev
      simp only [List.mem_append] at hev
      rcases hev with hev | hev
      · rcases fetchAttempts_events_shape o dtc (mkReq dtc sid istr sD eD) nh MAX_RETRIES 0 st ev
            hev with h1 | ⟨i, h1⟩
        · exact Or.inl h1
        · exact Or.inr (Or.inl ⟨i, h1⟩)
      · rcases fallbackLoop_events_shape o dtc sid istr t nh daysBackRange _ ev hev with
          h1 | ⟨db, hmem, i, h1⟩
        · exact Or.inl h1
        · exact Or.inr (Or.inr (Or.inl ⟨db, hmem, i, h1⟩))

theorem fallback_lsd_spec (o : Oracle) (dtc sid istr : String) (sD eD t : Int) (nh : String)
    (st : ApiStatusMap) (lsd : List (String × Int)) :
    (fetch_with_historical_fallback o dtc sid istr sD eD t nh st lsd).lastSuccessfulDates = lsd ∨
    ∃ e s0, (fetch_with_historical_fallback o dtc sid istr sD eD t nh st lsd).lastSuccessfulDates =
        setAssoc lsd dtc e ∧
      hasValidData (fetchResultOf o dtc sid istr s0 e nh) = true := by
  simp only [fetch_with_historical_fallback]
  by_cases hv : hasValidData (fetch_data_for_date_range o dtc sid istr sD eD nh st).result
  · rw [if_pos hv]
    refine Or.inr ⟨eD, sD, rfl, ?_⟩
    rw [← fetch_result_indep o dtc sid istr sD eD nh st]
    exact hv
  · rw [if_neg hv]
    rcases hfound : (fallbackLoop o dtc sid istr t nh daysBackRange
        (fetch_data_for_date_range o dtc sid istr sD eD nh st).apiStatus).found with _ | ⟨r, e⟩
    · rcases hlast : lookupAssoc lsd dtc with _ | d
      · exact Or.inl rfl
      · exact Or.inl rfl
    · obtain ⟨db, _, he, hr, hvalid⟩ :=
        fallbackLoop_found_spec o dtc sid istr t nh daysBackRange _ r e hfound
      refine Or.inr ⟨e, t - (db : Int), rfl, ?_⟩
      rw [← hr]
      exact hvalid

theorem fallback_lsd_other (o : Oracle) (dtc sid istr : String) (sD eD t : Int) (nh : String)
    (st : ApiStatusMap) (lsd : List (String × Int)) (key : String) (hk : key ≠ dtc) :
    lookupAssoc (fetch_with_historical_fallback o dtc sid istr sD eD t nh st lsd).lastSuccessfulDates
      key = lookupAssoc lsd key := by
  rcases fallback_lsd_spec o dtc sid istr sD eD t nh st lsd with h | ⟨e, s0, h, _⟩
  · rw [h]
  · rw [h, lookupAssoc_setAssoc_ne lsd dtc e key hk]

theorem fallback_first_hit (o : Oracle) (dtc sid istr : String) (t : Int) (nh : String)
    (st : ApiStatusMap) (lsd : List (String × Int)) (j : Nat) (hj : j ∈ daysBackRange)
    (hinit : hasValidData (initResultOf o dtc sid istr t nh) = false)
    (hbefore : ∀ db ∈ daysBackRange, db < j →
      hasValidData (walkResultOf o dtc sid istr t nh db) = false)
    (hhit : hasValidData (walkResultOf o dtc sid istr t nh j) = true) :
    (fetch_with_historical_fallback o dtc sid istr (t - (EXTENDED_DATA_WINDOW : Int)) t t nh st
        lsd).result = walkResultOf o dtc sid istr t nh j ∧
    (fetch_with_historical_fallback o dtc sid istr (t - (EXTENDED_DATA_WINDOW : Int)) t t nh st
        lsd).lastSuccessfulDates =
      setAssoc lsd dtc (t - ((j : Int) - (EXTENDED_DATA_WINDOW : Int))) ∧
    (fetch_with_historical_fallback o dtc sid istr (t - (EXTENDED_DATA_WINDOW : Int)) t t nh st
        lsd).events = initEventsOf o dtc sid istr t nh ++
      concatEvents (walkEventsOf o dtc sid istr t nh)
        (List.range' (EXTENDED_DATA_WINDOW + 1) (j - EXTENDED_DATA_WINDOW)) := by
  have hj4 : j = 4 ∨ j = 5 ∨ j = 6 ∨ j = 7 := by simpa [daysBackRange_eq] using hj
  simp only [initResultOf, EXTENDED_DATA_WINDOW] at hinit
  norm_num at hinit
  rcases hj4 with rfl | rfl | rfl | rfl
  · simp only [walkResultOf, EXTENDED_DATA_WINDOW] at hhit
    norm_num at hhit
    refine ⟨?_, ?_, ?_⟩ <;>
      simp [fetch_with_historical_fallback, daysBackRange_eq, fallbackLoop,
        fetch_result_indep, fetch_events_indep, hinit, hhit,
        walkResultOf, initEventsOf, walkEventsOf, concatEvents, EXTENDED_DATA_WINDOW,
        List.range']
  · have hb4 := hbefore 4 (by simp [daysBackRange_eq]) (by omega)
    simp only [walkResultOf, EXTENDED_DATA_WINDOW] at hb4 hhit
    norm_num at hb4 hhit
    refine ⟨?_, ?_, ?_⟩ <;>
      simp [fetch_with_historical_fallback, daysBackRange_eq, fallbackLoop,
        fetch_result_indep, fetch_events_indep, hinit, hb4, hhit,
        walkResultOf, initEventsOf, walkEventsOf, concatEvents, EXTENDED_DATA_WINDOW,
        List.range']
  · have hb4 := hbefore 4 (by simp [daysBackRange_eq]) (by omega)
    have hb5 := hbefore 5 (by simp [daysBackRange_eq]) (by omega)
    simp only [walkResultOf, EXTENDED_DATA_WINDOW] at hb4 hb5 hhit
    norm_num at hb4 hb5 hhit
    refine ⟨?_, ?_, ?_⟩ <;>
      simp [fetch_with_historical_fallback, daysBackRange_eq, fallbackLoop,
        fetch_result_indep, fetch_events_indep, hinit, hb4, hb5, hhit,
        walkResultOf, initEventsOf, walkEventsOf, concatEvents, EXTENDED_DATA_WINDOW,
        List.range']
  · have hb4 := hbefore 4 (by simp [daysBackRange_eq]) (by omega)
    have hb5 := hbefore 5 (by simp [daysBackRange_eq]) (by omega)
    have hb6 := hbefore 6 (by simp [daysBackRange_eq]) (by omega)
    simp only [walkResultOf, EXTENDED_DATA_WINDOW] at hb4 hb5 hb6 hhit
    norm_num at hb4 hb5 hb6 hhit
    refine ⟨?_, ?_, ?_⟩ <;>
      simp [fetch_with_historical_fallback, daysBackRange_eq, fallbackLoop,
        fetch_result_indep, fetch_events_indep, hinit, hb4, hb5, hb6, hhit,
        walkResultOf, initEventsOf, walkEventsOf, concatEvents, EXTENDED_DATA_WINDOW,
        List.range']

theorem fallback_init_hit (o : Oracle) (dtc sid istr : String) (t : Int) (nh : String)
    (st : ApiStatusMap) (lsd : List (String × Int))
    (hinit : hasValidData (initResultOf o dtc sid istr t nh) = true) :
    (fetch_with_historical_fallback o dtc sid istr (t - (EXTENDED_DATA_WINDOW : Int)) t t nh st
        lsd).result = initResultOf o dtc sid istr t nh ∧
    (fetch_with_historical_fallback o dtc sid istr (t - (EXTENDED_DATA_WINDOW : Int)) t t nh st
        lsd).lastSuccessfulDates = setAssoc lsd dtc t ∧
    (fetch_with_historical_fallback o dtc sid istr (t - (EXTENDED_DATA_WINDOW : Int)) t t nh st
        lsd).events = initEventsOf o dtc sid istr t nh := by
  have hinit' : hasValidData
      (fetchResultOf o dtc sid istr (t - (EXTENDED_DATA_WINDOW : Int)) t nh) = true := hinit
  refine ⟨?_, ?_, ?_⟩ <;>
    simp [fetch_with_historical_fallback, fetch_result_indep, fetch_events_indep, hinit',
      initResultOf, initEventsOf]

theorem fetch_events_label (o : Oracle) (dtc sid istr : String) (sD eD : Int) (nh : String)
    (st : ApiStatusMap) :
    ∀ (dt2 : String) (req : Request) (i : Nat),
      FetchEvent.attempt dt2 req i ∈ (fetch_data_for_date_range o dtc sid istr sD eD nh st).events →
      dt2 = dtc ∧ req = mkReq dtc sid istr sD eD := by
  intro dt2 req i hev
  rcases fetchAttempts_events_shape o dtc (mkReq dtc sid istr sD eD) nh MAX_RETRIES 0 st
      (FetchEvent.attempt dt2 req i) hev with h | ⟨i', h⟩
  · exact absurd h (by simp)
  · injection h with h1 h2 h3
    exact ⟨h1, h2⟩

theorem fallback_events_label (o : Oracle) (dtc sid istr : String) (sD eD t : Int) (nh : String)
    (st : ApiStatusMap) (lsd : List (String × Int)) :
    ∀ (dt2 : String) (req : Request) (i : Nat),
      FetchEvent.attempt dt2 req i ∈
        (fetch_with_historical_fallback o dtc sid istr sD eD t nh st lsd).events →
      dt2 = dtc := by
  intro dt2 req i hev
  rcases fallback_events_shape o dtc sid istr sD eD t nh st lsd (FetchEvent.attempt dt2 req i) hev
    with h | ⟨i', h⟩ | ⟨db, _, i', h⟩ | ⟨d, _, i', h⟩
  · exact absurd h (by simp)
  · injection h with h1 h2 h3
  · injection h with h1 h2 h3
  · injection h with h1 h2 h3

theorem lookupAssoc_updStatus_self (st : ApiStatusMap) (dt : String)
    (f : ApiStatusEntry → ApiStatusEntry) :
    lookupAssoc (updStatus st dt f) dt = some (f ((lookupAssoc st dt).getD {})) := by
  unfold updStatus
  exact lookupAssoc_updAssoc_self {} st dt f

theorem lookupAssoc_updStatus_ne (st : ApiStatusMap) (dt : String)
    (f : ApiStatusEntry → ApiStatusEntry) (key : String) (h : key ≠ dt) :
    lookupAssoc (updStatus st dt f) key = lookupAssoc st key := by
  unfold updStatus
  exact lookupAssoc_updAssoc_ne {} st dt f key h

theorem lookupAssoc_markAllError_not_mem (sv msg nI : String) :
    ∀ (dts : List String) (st : ApiStatusMap) (dt : String), dt ∉ dts →
      lookupAssoc (markAllError dts st sv msg nI) dt = lookupAssoc st dt := by
  intro dts
  induction dts with
  | nil => intro st dt _; rfl
  | cons a rest ih =>
    intro st dt hdt
    simp only [List.mem_cons, not_or] at hdt
    simp only [markAllError]
    rw [ih _ dt hdt.2, lookupAssoc_updStatus_ne st a _ dt hdt.1]

theorem markAllError_mem (sv msg nI : String) :
    ∀ (dts : List String) (st : ApiStatusMap) (dt : String), dt ∈ dts →
      ∃ en, lookupAssoc (markAllError dts st sv msg nI) dt = some en ∧
        en.status = some sv ∧ en.error = some msg ∧ en.last_checked = some nI := by
  intro dts
  induction dts with
  | nil => intro st dt h; simp at h
  | cons a rest ih =>
    intro st dt hdt
    by_cases hmem : dt ∈ rest
    · simpa [markAllError] using ih _ dt hmem
    · have hda : dt = a := by
        rcases List.mem_cons.mp hdt with h | h
        · exact h
        · exact absurd h hmem
      subst hda
      simp only [markAllError]
      rw [lookupAssoc_markAllError_not_mem sv msg nI rest _ dt hmem, lookupAssoc_updStatus_self]
      exact ⟨_, rfl, rfl, rfl, rfl⟩

theorem cycleLoop_data_const (o : Oracle) (stations : List (String × String)) (t : Int)
    (nI nH : String) :
    ∀ (dts : List String) (data : Snapshot) (s : CoordState),
      ((cycleLoop o stations t nI nH dts data s).2.1).data = s.data := by
  intro dts
  induction dts with
  | nil => intro data s; rfl
  | cons dt rest ih =>
    intro data s
    rcases hst : lookupAssoc stations dt with _ | sid
    · simp [cycleLoop, hst]
    · rcases hgi : get_station_indicators dt sid with msg | inds
      · simp [cycleLoop, hst, hgi]
      · by_cases hempty : inds.isEmpty
        · simp [cycleLoop, hst, hgi, hempty, ih]
        · by_cases hp : dt = DATA_TYPE_POLLEN
          · subst hp
            simp [cycleLoop, hst, hgi, hempty, ih]
          · simp [cycleLoop, hst, hgi, hempty, hp, ih]

theorem cycleLoop_lsd_spec (o : Oracle) (stations : List (String × String)) (t : Int)
    (nI nH : String) :
    ∀ (dts : List String) (data : Snapshot) (s : CoordState) (key : String) (d : Int),
      lookupAssoc ((cycleLoop o stations t nI nH dts data s).2.1).lastSuccessfulDates key
          = some d →
      lookupAssoc s.lastSuccessfulDates key = some d ∨
      ∃ sid istr s0, hasValidData (fetchResultOf o key sid istr s0 d nH) = true := by
  intro dts
  induction dts with
  | nil => intro data s key d h; exact Or.inl h
  | cons dt rest ih =>
    intro data s key d h
    rcases hst : lookupAssoc stations dt with _ | sid
    · simp only [cycleLoop, hst] at h
      exact Or.inl h
    · rcases hgi : get_station_indicators dt sid with msg | inds
      · simp only [cycleLoop, hst, hgi] at h
        exact Or.inl h
      · by_cases hempty : inds.isEmpty
        · simp only [cycleLoop, hst, hgi] at h
          rw [if_pos hempty] at h
          exact ih _ _ key d h
        · by_cases hp : dt = DATA_TYPE_POLLEN
          · subst hp
            simp only [cycleLoop, hst, hgi] at h
            rw [if_neg hempty, if_pos True.intro] at h
            dsimp only at h
            rcases ih _ _ key d h with h1 | h2
            · dsimp only at h1
              rcases fallback_lsd_spec o DATA_TYPE_POLLEN sid
                  (String.intercalate "," (inds.map (fun i => toString i)))
                  (t - (EXTENDED_DATA_WINDOW : Int)) t t nH s.apiStatus
                  s.lastSuccessfulDates with heq | ⟨e, s0, heq, hval⟩
              · rw [heq] at h1
                exact Or.inl h1
              · rw [heq] at h1
                by_cases hkey : key = DATA_TYPE_POLLEN
                · subst hkey
                  rw [lookupAssoc_setAssoc_self] at h1
                  have hed : e = d := by injection h1
                  subst hed
                  exact Or.inr ⟨sid, String.intercalate "," (inds.map (fun i => toString i)),
                    s0, hval⟩
                · rw [lookupAssoc_setAssoc_ne _ _ _ _ hkey] at h1
                  exact Or.inl h1
            · exact Or.inr h2
          · simp only [cycleLoop, hst, hgi] at h
            rw [if_neg hempty, if_neg hp] at h
            dsimp only at h
            have hrec := ih _ _ key d h
            exact hrec

theorem cycleLoop_lsd_nonpollen (o : Oracle) (stations : List (String × String)) (t : Int)
    (nI nH : String) (key : String) (hk : key ≠ DATA_TYPE_POLLEN) :
    ∀ (dts : List String) (data : Snapshot) (s : CoordState),
      lookupAssoc ((cycleLoop o stations t nI nH dts data s).2.1).lastSuccessfulDates key =
        lookupAssoc s.lastSuccessfulDates key := by
  intro dts
  induction dts with
  | nil => intro data s; rfl
  | cons dt rest ih =>
    intro data s
    rcases hst : lookupAssoc stations dt with _ | sid
    · simp only [cycleLoop, hst]
    · rcases hgi : get_station_indicators dt sid with msg | inds
      · simp only [cycleLoop, hst, hgi]
      · by_cases hempty : inds.isEmpty
        · simp only [cycleLoop, hst, hgi]
          rw [if_pos hempty]
          exact ih _ _
        · by_cases hp : dt = DATA_TYPE_POLLEN
          · subst hp
            simp only [cycleLoop, hst, hgi]
            rw [if_neg hempty, if_pos True.intro]
            dsimp only
            rw [ih _ _]
            dsimp only
            exact fallback_lsd_other o DATA_TYPE_POLLEN sid
              (String.intercalate "," (inds.map (fun i => toString i)))
              (t - (EXTENDED_DATA_WINDOW : Int)) t t nH s.apiStatus s.lastSuccessfulDates key hk
          · simp only [cycleLoop, hst, hgi]
            rw [if_neg hempty, if_neg hp]
            dsimp only
            rw [ih _ _]

theorem cycleLoop_skip_snapshot (o : Oracle) (stations : List (String × String)) (t : Int)
    (nI nH : String) (dtSkip sid0 : String)
    (hsid : lookupAssoc stations dtSkip = some sid0)
    (hind : get_station_indicators dtSkip sid0 = Except.ok []) :
    ∀ (dts : List String) (data : Snapshot) (s : CoordState) (snap : Snapshot),
      (cycleLoop o stations t nI nH dts data s).1 = Except.ok snap →
      lookupAssoc snap dtSkip = lookupAssoc data dtSkip := by
  intro dts
  induction dts with
  | nil =>
    intro data s snap h
    have hds : data = snap := by injection h
    rw [hds]
  | cons dt rest ih =>
    intro data s snap h
    by_cases hdt : dt = dtSkip
    · subst hdt
      simp [cycleLoop, hsid, hind] at h
      exact ih _ _ snap h
    · rcases hst : lookupAssoc stations dt with _ | sid
      · simp only [cycleLoop, hst] at h
        simp at h
      · rcases hgi : get_station_indicators dt sid with msg | inds
        · simp only [cycleLoop, hst, hgi] at h
          simp at h
        · by_cases hempty : inds.isEmpty
          · simp only [cycleLoop, hst, hgi] at h
            rw [if_pos hempty] at h
            exact ih data s snap h
          · by_cases hp : dt = DATA_TYPE_POLLEN
            · subst hp
              simp only [cycleLoop, hst, hgi] at h
              rw [if_neg hempty, if_pos True.intro] at h
              dsimp only at h
              rw [ih _ _ snap h, lookupAssoc_setAssoc_ne _ _ _ _ (fun hh => hdt hh.symm)]
            · simp only [cycleLoop, hst, hgi] at h
              rw [if_neg hempty, if_neg hp] at h
              dsimp only at h
              rw [ih _ _ snap h, lookupAssoc_setAssoc_ne _ _ _ _ (fun hh => hdt hh.symm)]

theorem cycleLoop_skip_events (o : Oracle) (stations : List (String × String)) (t : Int)
    (nI nH : String) (dtSkip sid0 : String)
    (hsid : lookupAssoc stations dtSkip = some sid0)
    (hind : get_station_indicators dtSkip sid0 = Except.ok []) :
    ∀ (dts : List String) (data : Snapshot) (s : CoordState) (req : Request) (i : Nat),
      FetchEvent.attempt dtSkip req i ∈ (cycleLoop o stations t nI nH dts data s).2.2 → False := by
  intro dts
  induction dts with
  | nil => intro data s req i h; simp [cycleLoop] at h
  | cons dt rest ih =>
    intro data s req i h
    by_cases hdt : dt = dtSkip
    · subst hdt
      simp [cycleLoop, hsid, hind] at h
      exact ih _ _ req i h
    · rcases hst : lookupAssoc stations dt with _ | sid
      · simp only [cycleLoop, hst] at h
        simp at h
      · rcases hgi : get_station_indicators dt sid with msg | inds
        · simp only [cycleLoop, hst, hgi] at h
          simp at h
        · by_cases hempty : inds.isEmpty
          · simp only [cycleLoop, hst, hgi] at h
            rw [if_pos hempty] at h
            exact ih data s req i h
          · by_cases hp : dt = DATA_TYPE_POLLEN
            · subst hp
              simp only [cycleLoop, hst, hgi] at h
              rw [if_neg hempty, if_pos True.intro] at h
              dsimp only at h
              rcases List.mem_append.mp h with h1 | h1
              · exact hdt ((fallback_events_label o DATA_TYPE_POLLEN sid
                  (String.intercalate "," (inds.map (fun i => toString i)))
                  (t - (EXTENDED_DATA_WINDOW : Int)) t t nH s.apiStatus s.lastSuccessfulDates
                  dtSkip req i h1).symm)
              · exact ih _ _ req i h1
            · simp only [cycleLoop, hst, hgi] at h
              rw [if_neg hempty, if_neg hp] at h
              dsimp only at h
              rcases List.mem_append.mp h with h1 | h1
              · exact hdt ((fetch_events_label o dt sid
                  (String.intercalate "," (inds.map (fun i => toString i)))
                  (t - (EXTENDED_DATA_WINDOW : Int)) t nH s.apiStatus dtSkip req i h1).1.symm)
              · exact ih _ _ req i h1

theorem async_state_lsd (o : Oracle) (dataTypes : List String)
    (stations : List (String × String)) (t : Int) (nI nH : String) (s : CoordState) :
    (async_update_data o dataTypes stations t nI nH s).state.lastSuccessfulDates =
      ((cycleLoop o stations t nI nH dataTypes [] s).2.1).lastSuccessfulDates := by
  rcases hc : cycleLoop o stations t nI nH dataTypes [] s with ⟨exc, s1, evs⟩
  rcases exc with e | data2
  · simp only [async_update_data, hc]
    rcases hd : s1.data with _ | snap
    · rfl
    · by_cases he : snap.isEmpty <;> simp [he]
  · simp only [async_update_data, hc]

theorem async_events_eq (o : Oracle) (dataTypes : List String)
    (stations : List (String × String)) (t : Int) (nI nH : String) (s : CoordState) :
    (async_update_data o dataTypes stations t nI nH s).events =
      (cycleLoop o stations t nI nH dataTypes [] s).2.2 := by
  rcases hc : cycleLoop o stations t nI nH dataTypes [] s with ⟨exc, s1, evs⟩
  rcases exc with e | data2
  · simp only [async_update_data, hc]
    rcases hd : s1.data with _ | snap
    · rfl
    · by_cases he : snap.isEmpty <;> simp [he]
  · simp only [async_update_data, hc]

theorem async_error_spec (o : Oracle) (dataTypes : List String)
    (stations : List (String × String)) (t : Int) (nI nH : String) (s : CoordState)
    (e : PyExn) (s1 : CoordState) (evs : List FetchEvent)
    (hrun : cycleLoop o stations t nI nH dataTypes [] s = (Except.error e, s1, evs)) :
    (async_update_data o dataTypes stations t nI nH s).state =
      { s1 with apiStatus :=
          markAllError dataTypes s1.apiStatus (exnStatusVal e) (exnMsg e) nI } ∧
    (∀ snap, s1.data = some snap → snap ≠ [] →
      (async_update_data o dataTypes stations t nI nH s).outcome = Except.ok snap) ∧
    ((s1.data = none ∨ s1.data = some []) →
      (async_update_data o dataTypes stations t nI nH s).outcome =
        Except.error (exnFailMsg e)) := by
  refine ⟨?_, ?_, ?_⟩
  · simp only [async_update_data, hrun]
    rcases hd : s1.data with _ | snap
    · cases e <;> rfl
    · by_cases he : snap.isEmpty <;> cases e <;> simp [he, exnStatusVal, exnMsg]
  · intro snap hd hne
    have he : snap.isEmpty = false := by
      rcases snap with _ | ⟨a, rest⟩
      · exact absurd rfl hne
      · rfl
    simp only [async_update_data, hrun, hd]
    cases e <;> simp [he]
  · intro hd
    rcases hd with hd | hd <;> simp only [async_update_data, hrun, hd] <;> cases e <;>
      simp [exnFailMsg]

theorem applyCycle_lsd_nonpollen (dataTypes : List String) (stations : List (String × String))
    (inp : CycleInput) (s : CoordState) (key : String) (hk : key ≠ DATA_TYPE_POLLEN) :
    lookupAssoc (applyCycle dataTypes stations inp s).lastSuccessfulDates key =
      lookupAssoc s.lastSuccessfulDates key := by
  unfold applyCycle
  rcases hout : (async_update_data inp.oracle dataTypes stations inp.t inp.nowIso inp.nowHms
      s).outcome with m | snap <;>
    simp only [hout] <;>
    rw [show ∀ res : CycleOutput, res.state.lastSuccessfulDates =
        res.state.lastSuccessfulDates from fun _ => rfl] <;>
    rw [async_state_lsd, cycleLoop_lsd_nonpollen inp.oracle stations inp.t inp.nowIso
      inp.nowHms key hk]

/-- Claim C7: `last_successful_dates` for a category is only ever assigned
the end date of a fetch that returned a non-empty CategoryResult (at least
one indicator with at least one Measurement): after any refresh cycle,
every entry either was already present or is the end date of a fetch for
that category whose result had valid data.  No code path assigns it after
an empty or failed fetch. -/
theorem C7_lsd_only_advances_on_nonempty (o : Oracle) (dataTypes : List String)
    (stations : List (String × String)) (t : Int) (nI nH : String) (s : CoordState)
    (key : String) (d : Int)
    (h : lookupAssoc
        (async_update_data o dataTypes stations t nI nH s).state.lastSuccessfulDates key
        = some d) :
    lookupAssoc s.lastSuccessfulDates key = some d ∨
    ∃ sid istr s0, hasValidData (fetchResultOf o key sid istr s0 d nH) = true := by
  rw [async_state_lsd] at h
  exact cycleLoop_lsd_spec o stations t nI nH dataTypes [] s key d h

/-- Witness for C7: a pollen cycle whose current-window fetch returns one
birch record ends with `last_successful_dates = [("pollen", 0)]`, and the
invariant confirms day 0 came from a non-empty fetch (the initial state had
no entry). -/
theorem C7_witness :
    lookupAssoc (initialState : CoordState).lastSuccessfulDates "pollen" = some 0 ∨
    ∃ sid istr s0, hasValidData (fetchResultOf oraclePollenOk "pollen" sid istr s0 0 "HMS")
      = true :=
  C7_lsd_only_advances_on_nonempty oraclePollenOk ["pollen"] [("pollen", "23")] 0 "ISO" "HMS"
    initialState "pollen" 0 (by decide)

/-- Claim C10: for data types other than pollen, no coordinator operation
ever writes an entry into `last_successful_dates` — over any whole lifetime
of scheduled cycles from the initial state, the entry stays absent, even
after cycles that fetched non-empty data. -/
theorem C10_nonpollen_lsd_never_written (dataTypes : List String)
    (stations : List (String × String)) (inputs : List CycleInput) (key : String)
    (hk : key ≠ DATA_TYPE_POLLEN) :
    lookupAssoc (runCycles dataTypes stations inputs initialState).lastSuccessfulDates key
      = none := by
  suffices h : ∀ s : CoordState, lookupAssoc s.lastSuccessfulDates key = none →
      lookupAssoc (runCycles dataTypes stations inputs s).lastSuccessfulDates key = none from
    h initialState rfl
  induction inputs with
  | nil => intro s hs; exact hs
  | cons inp rest ih =>
    intro s hs
    have hstep : lookupAssoc (applyCycle dataTypes stations inp s).lastSuccessfulDates key
        = none := by
      rw [applyCycle_lsd_nonpollen dataTypes stations inp s key hk]
      exact hs
    exact ih _ hstep

/-- Witness for C10: after one cycle that fetched a non-empty air-quality
result (station 9, one PM2.5 record), the snapshot holds the data yet
`last_successful_dates` has no entry for `airquality`. -/
theorem C10_witness :
    lookupAssoc (runCycles ["airquality"] [("airquality", "9")]
        [⟨oracleRad503, 0, "ISO", "HMS"⟩] initialState).lastSuccessfulDates "airquality"
      = none ∧
    (runCycles ["airquality"] [("airquality", "9")] [⟨oracleRad503, 0, "ISO", "HMS"⟩]
        initialState).data =
      some [("airquality", processRecords [recPM25] "HMS" 0)] :=
  ⟨C10_nonpollen_lsd_never_written ["airquality"] [("airquality", "9")]
    [⟨oracleRad503, 0, "ISO", "HMS"⟩] "airquality" (by decide), rfl⟩

/-- Claim C1, amended: when the cycle body raises an exception outside the
per-category fetch path, the handler marks every configured data type's
diagnostics with `connection_error` (for `aiohttp.ClientError`) or `error`
(otherwise) and the error text, returns the cached snapshot unchanged when
one exists (raising `UpdateFailed` otherwise), and itself adds nothing to
`last_successful_dates` — the final `last_successful_dates` is exactly what
it was at the instant the exception was raised.  (Entries written by
categories processed successfully earlier in the same cycle persist, so
`last_successful_dates` is not in general unchanged from the start of the
call; see the counterexample.) -/
theorem C1_fatal_error_returns_cached_snapshot (o : Oracle) (dataTypes : List String)
    (stations : List (String × String)) (t : Int) (nI nH : String) (s : CoordState)
    (e : PyExn) (s1 : CoordState) (evs : List FetchEvent)
    (hrun : cycleLoop o stations t nI nH dataTypes [] s = (Except.error e, s1, evs)) :
    (async_update_data o dataTypes stations t nI nH s).state.lastSuccessfulDates =
      s1.lastSuccessfulDates ∧
    (∀ dt ∈ dataTypes, ∃ en,
      lookupAssoc (async_update_data o dataTypes stations t nI nH s).state.apiStatus dt
        = some en ∧
      en.status = some (exnStatusVal e) ∧ en.error = some (exnMsg e) ∧
      en.last_checked = some nI) ∧
    (∀ snap, s.data = some snap → snap ≠ [] →
      (async_update_data o dataTypes stations t nI nH s).outcome = Except.ok snap) ∧
    ((s.data = none ∨ s.data = some []) →
      (async_update_data o dataTypes stations t nI nH s).outcome =
        Except.error (exnFailMsg e)) := by
  obtain ⟨hstate, hcached, hfail⟩ :=
    async_error_spec o dataTypes stations t nI nH s e s1 evs hrun
  have hdata : s1.data = s.data := by
    have hc := cycleLoop_data_const o stations t nI nH dataTypes [] s
    rw [hrun] at hc
    exact hc
  refine ⟨?_, ?_, ?_, ?_⟩
  · rw [hstate]
  · intro dt hdt
    rw [hstate]
    exact markAllError_mem (exnStatusVal e) (exnMsg e) nI dataTypes s1.apiStatus dt hdt
  · intro snap hd hne
    exact hcached snap (by rw [hdata]; exact hd) hne
  · intro hd
    exact hfail (by rw [hdata]; exact hd)

/-- Counterexample to C1 as stated: the claim asserts the refresh "does not
modify `last_successful_dates`".  With pollen configured first (its fetch
succeeds and records day 0) and a second category whose station key is
missing from the config (raising `KeyError` outside the fetch path), the
call returns the cached snapshot as the claim requires, yet
`last_successful_dates` went from `[]` to `[("pollen", 0)]`. -/
theorem C1_counterexample :
    (async_update_data oraclePollenOk ["pollen", "airquality"] [("pollen", "23")] 0 "ISO" "HMS"
        ⟨[], [], [], some cachedSnap⟩).outcome = Except.ok cachedSnap ∧
    (async_update_data oraclePollenOk ["pollen", "airquality"] [("pollen", "23")] 0 "ISO" "HMS"
        ⟨[], [], [], some cachedSnap⟩).state.lastSuccessfulDates = [("pollen", 0)] ∧
    [("pollen", (0 : Int))] ≠ ([] : List (String × Int)) := by
  refine ⟨rfl, rfl, by decide⟩

/-- Witness for C1: in the same scenario the theorem yields the cached
snapshot as the outcome and an `error` diagnostics entry carrying the
`KeyError` text for both configured categories. -/
theorem C1_witness :
    (async_update_data oraclePollenOk ["pollen", "airquality"] [("pollen", "23")] 0 "ISO" "HMS"
        ⟨[], [], [], some cachedSnap⟩).outcome = Except.ok cachedSnap ∧
    (∃ en, lookupAssoc (async_update_data oraclePollenOk ["pollen", "airquality"]
        [("pollen", "23")] 0 "ISO" "HMS"
        ⟨[], [], [], some cachedSnap⟩).state.apiStatus "airquality" = some en ∧
      en.status = some (exnStatusVal (PyExn.other "KeyError: airquality")) ∧
      en.error = some (exnMsg (PyExn.other "KeyError: airquality")) ∧
      en.last_checked = some "ISO") :=
  ⟨(C1_fatal_error_returns_cached_snapshot oraclePollenOk ["pollen", "airquality"]
      [("pollen", "23")] 0 "ISO" "HMS" ⟨[], [], [], some cachedSnap⟩
      (PyExn.other "KeyError: airquality") _ _ rfl).2.2.1 cachedSnap rfl (by decide),
   (C1_fatal_error_returns_cached_snapshot oraclePollenOk ["pollen", "airquality"]
      [("pollen", "23")] 0 "ISO" "HMS" ⟨[], [], [], some cachedSnap⟩
      (PyExn.other "KeyError: airquality") _ _ rfl).2.1 "airquality" (by decide)⟩

/-- Claim C2, amended: a configured category whose station has no
indicators in the static catalog is skipped by the cycle: the normally
returned snapshot contains no entry at all for it (rather than an empty
CategoryResult), no HTTP call is made for it, and the skip itself raises no
error. -/
theorem C2_empty_catalog_category_skipped (o : Oracle) (dataTypes : List String)
    (stations : List (String × String)) (t : Int) (nI nH : String) (s : CoordState)
    (dt sid : String)
    (hsid : lookupAssoc stations dt = some sid)
    (hind : get_station_indicators dt sid = Except.ok []) :
    (∀ snap, (cycleLoop o stations t nI nH dataTypes [] s).1 = Except.ok snap →
      (async_update_data o dataTypes stations t nI nH s).outcome = Except.ok snap ∧
      lookupAssoc snap dt = none) ∧
    (∀ req i, FetchEvent.attempt dt req i ∈
      (async_update_data o dataTypes stations t nI nH s).events → False) := by
  constructor
  · intro snap hcyc
    rcases hc : cycleLoop o stations t nI nH dataTypes [] s with ⟨exc, s1, evs⟩
    rw [hc] at hcyc
    simp only at hcyc
    subst hcyc
    constructor
    · simp only [async_update_data, hc]
    · have := cycleLoop_skip_snapshot o stations t nI nH dt sid hsid hind dataTypes [] s snap
        (by rw [hc])
      simpa [lookupAssoc] using this
  · intro req i hev
    rw [async_events_eq] at hev
    exact cycleLoop_skip_events o stations t nI nH dt sid hsid hind dataTypes [] s req i hev

/-- Counterexample to C2 as stated: with `airquality` configured for the
catalog-less station 99, the cycle returns the snapshot `[]`: there is no
entry for the category at all, in particular not an empty CategoryResult
bound to it. -/
theorem C2_counterexample :
    (async_update_data oracleAllEmpty ["airquality"] [("airquality", "99")] 0 "ISO" "HMS"
        initialState).outcome = Except.ok ([] : Snapshot) ∧
    lookupAssoc ([] : Snapshot) "airquality" = none ∧
    lookupAssoc ([] : Snapshot) "airquality" ≠ some ([] : CategoryResult) := by
  refine ⟨rfl, rfl, by decide⟩

/-- Witness for C2: in the station-99 scenario the amended theorem gives
the entry-free snapshot and the absence of HTTP calls for the category. -/
theorem C2_witness :
    ((async_update_data oracleAllEmpty ["airquality"] [("airquality", "99")] 0 "ISO" "HMS"
        initialState).outcome = Except.ok ([] : Snapshot) ∧
      lookupAssoc ([] : Snapshot) "airquality" = none) ∧
    (∀ req i, FetchEvent.attempt "airquality" req i ∈
      (async_update_data oracleAllEmpty ["airquality"] [("airquality", "99")] 0 "ISO" "HMS"
        initialState).events → False) :=
  ⟨(C2_empty_catalog_category_skipped oracleAllEmpty ["airquality"] [("airquality", "99")] 0
      "ISO" "HMS" initialState "airquality" "99" rfl rfl).1 [] rfl,
   (C2_empty_catalog_category_skipped oracleAllEmpty ["airquality"] [("airquality", "99")] 0
      "ISO" "HMS" initialState "airquality" "99" rfl rfl).2⟩

/-- Claim C3, amended: the retried fetch retries every failing attempt —
non-200 status, timeout, decode failure, and any other exception raised
during the attempt, including malformed-input errors from caller bugs —
and when all `MAX_RETRIES` attempts fail it returns an empty
CategoryResult; nothing propagates to the caller and no failure kind is
exempt from retry. -/
theorem C3_every_failure_retried (o : Oracle) (dt sid istr : String) (sD eD : Int)
    (nh : String) (st : ApiStatusMap)
    (h0 : isFail (o (mkReq dt sid istr sD eD) 0) = true)
    (h1 : isFail (o (mkReq dt sid istr sD eD) 1) = true)
    (h2 : isFail (o (mkReq dt sid istr sD eD) 2) = true) :
    (fetch_data_for_date_range o dt sid istr sD eD nh st).result = [] ∧
    countAttempts (fetch_data_for_date_range o dt sid istr sD eD nh st).events
      = MAX_RETRIES := by
  rw [fetch_eq_attempts]
  refine fetchAttempts_allFail o dt (mkReq dt sid istr sD eD) nh MAX_RETRIES 0 st ?_
  intro i hi
  have hi3 : i < 3 := hi
  interval_cases i
  · simpa using h0
  · simpa using h1
  · simpa using h2

/-- Counterexample to C3 as stated: an attempt that raises a
malformed-input `ValueError` (a caller bug) is not propagated immediately —
the loop retries it twice more (three attempts with a sleep in between) and
then converts it into an empty result, recording an `error` status. -/
theorem C3_counterexample :
    (fetch_data_for_date_range oracleAllExn "airquality" "9" "1" (-3) 0 "HMS" []).result
      = [] ∧
    (fetch_data_for_date_range oracleAllExn "airquality" "9" "1" (-3) 0 "HMS" []).events =
      [FetchEvent.attempt "airquality" (mkReq "airquality" "9" "1" (-3) 0) 0,
       FetchEvent.sleep 2,
       FetchEvent.attempt "airquality" (mkReq "airquality" "9" "1" (-3) 0) 1,
       FetchEvent.sleep 2,
       FetchEvent.attempt "airquality" (mkReq "airquality" "9" "1" (-3) 0) 2] ∧
    lookupAssoc (fetch_data_for_date_range oracleAllExn "airquality" "9" "1" (-3) 0 "HMS"
        []).apiStatus "airquality" =
      some ⟨some "error", some "ValueError: invalid arguments", none, none⟩ :=
  ⟨rfl, rfl, rfl⟩

/-- Witness for C3: the all-`ValueError` oracle satisfies the amended
theorem's hypotheses and yields the empty result after exactly
`MAX_RETRIES` attempts. -/
theorem C3_witness :
    (fetch_data_for_date_range oracleAllExn "pollen" "23" "48" (-3) 0 "HMS" []).result = [] ∧
    countAttempts (fetch_data_for_date_range oracleAllExn "pollen" "23" "48" (-3) 0 "HMS"
      []).events = MAX_RETRIES :=
  C3_every_failure_retried oracleAllExn "pollen" "23" "48" (-3) 0 "HMS" []
    (by decide) (by decide) (by decide)

/-- Claim C8: when every attempt receives a non-200 response, the retried
fetch makes exactly `MAX_RETRIES` (3) HTTP attempts with a fixed 2-second
sleep between consecutive attempts — no exponential backoff — and then
returns an empty CategoryResult. -/
theorem C8_non200_retry_discipline (o : Oracle) (dt sid istr : String) (sD eD : Int)
    (nh : String) (st : ApiStatusMap) (c0 c1 c2 : Nat)
    (h0 : o (mkReq dt sid istr sD eD) 0 = AttemptOutcome.non200 c0)
    (h1 : o (mkReq dt sid istr sD eD) 1 = AttemptOutcome.non200 c1)
    (h2 : o (mkReq dt sid istr sD eD) 2 = AttemptOutcome.non200 c2) :
    (fetch_data_for_date_range o dt sid istr sD eD nh st).result = [] ∧
    (fetch_data_for_date_range o dt sid istr sD eD nh st).events =
      [FetchEvent.attempt dt (mkReq dt sid istr sD eD) 0,
       FetchEvent.sleep 2,
       FetchEvent.attempt dt (mkReq dt sid istr sD eD) 1,
       FetchEvent.sleep 2,
       FetchEvent.attempt dt (mkReq dt sid istr sD eD) 2] ∧
    countAttempts (fetch_data_for_date_range o dt sid istr sD eD nh st).events
      = MAX_RETRIES := by
  refine ⟨?_, ?_, ?_⟩ <;>
    simp [fetch_eq_attempts, MAX_RETRIES, fetchAttempts, h0, h1, h2, countAttempts]

/-- Witness for C8: the all-503 oracle produces the exact
attempt/sleep/attempt/sleep/attempt trace and an empty result. -/
theorem C8_witness :
    (fetch_data_for_date_range oracleAll503 "radiation" "45" "80" (-3) 0 "HMS" []).result
      = [] ∧
    (fetch_data_for_date_range oracleAll503 "radiation" "45" "80" (-3) 0 "HMS" []).events =
      [FetchEvent.attempt "radiation" (mkReq "radiation" "45" "80" (-3) 0) 0,
       FetchEvent.sleep 2,
       FetchEvent.attempt "radiation" (mkReq "radiation" "45" "80" (-3) 0) 1,
       FetchEvent.sleep 2,
       FetchEvent.attempt "radiation" (mkReq "radiation" "45" "80" (-3) 0) 2] ∧
    countAttempts (fetch_data_for_date_range oracleAll503 "radiation" "45" "80" (-3) 0 "HMS"
      []).events = MAX_RETRIES :=
  C8_non200_retry_discipline oracleAll503 "radiation" "45" "80" (-3) 0 "HMS" [] 503 503 503
    rfl rfl rfl

/-- Claim C9: every Measurement produced by a fetch carries `fetch_date`
equal to the end date of the date range of that fetch, and every HTTP
request the fetch issues uses exactly that range in its URL — so
`fetch_date` always equals the range end appearing in the outbound request
URL, never any other date. -/
theorem C9_fetch_date_round_trip (o : Oracle) (dt sid istr : String) (sD eD : Int)
    (nh : String) (st : ApiStatusMap) :
    (∀ p ∈ (fetch_data_for_date_range o dt sid istr sD eD nh st).result, ∀ m ∈ p.2,
      m.fetch_date = eD) ∧
    (∀ dt2 req i, FetchEvent.attempt dt2 req i ∈
        (fetch_data_for_date_range o dt sid istr sD eD nh st).events →
      req = mkReq dt sid istr sD eD ∧ req.rangeEnd = eD ∧
      buildUrl req = BASE_URL ++ "?stations=" ++ sid ++ "&indicators=" ++ istr ++ "&range=" ++
        fmtDate sD ++ "," ++ fmtDate eD ++ "&type=" ++
        ((lookupAssoc DATA_TYPE_TO_API_TYPE dt).getD "INDICATOR")) := by
  constructor
  · intro p hp m hm
    exact fetchAttempts_fetch_date o dt (mkReq dt sid istr sD eD) nh MAX_RETRIES 0 st p hp m hm
  · intro dt2 req i hev
    obtain ⟨hl, hreq⟩ := fetch_events_label o dt sid istr sD eD nh st dt2 req i hev
    subst hreq
    exact ⟨rfl, rfl, rfl⟩

/-- Witness for C9: the birch record fetched for the range ending on day 0
carries `fetch_date = 0`, and the issued request's URL range ends on day 0. -/
theorem C9_witness :
    (⟨"2026-10-12 09:00", "7", 23, "HMS", 0, "success", "station_23"⟩ : Measurement).fetch_date
      = (0 : Int) ∧
    ((mkReq "pollen" "23" "48" (-3) 0 : Request) = mkReq "pollen" "23" "48" (-3) 0 ∧
      (mkReq "pollen" "23" "48" (-3) 0 : Request).rangeEnd = (0 : Int) ∧
      buildUrl (mkReq "pollen" "23" "48" (-3) 0) = BASE_URL ++ "?stations=" ++ "23" ++
        "&indicators=" ++ "48" ++ "&range=" ++ fmtDate (-3) ++ "," ++ fmtDate 0 ++ "&type=" ++
        ((lookupAssoc DATA_TYPE_TO_API_TYPE "pollen").getD "INDICATOR")) :=
  ⟨(C9_fetch_date_round_trip oraclePollenOk "pollen" "23" "48" (-3) 0 "HMS" []).1
      (48, [⟨"2026-10-12 09:00", "7", 23, "HMS", 0, "success", "station_23"⟩]) (by decide)
      ⟨"2026-10-12 09:00", "7", 23, "HMS", 0, "success", "station_23"⟩ (by decide),
   (C9_fetch_date_round_trip oraclePollenOk "pollen" "23" "48" (-3) 0 "HMS" []).2
      "pollen" (mkReq "pollen" "23" "48" (-3) 0) 0 (by decide)⟩

/-- Claim C4, amended: with air-quality station 9 and radiation station 45
configured, if every attempt of the radiation fetch receives HTTP 503, the
cycle completes normally (no exception reaches the caller) with an empty
CategoryResult for radiation and the air-quality result unaffected (exactly
the grouped records of its own response), and the radiation diagnostics
entry ends the cycle with the last HTTP status 503 recorded in
`http_status` — but with `status = "no_data"`, because the per-attempt
non-200 handler records only `http_status` and the orchestrator then
overwrites `status` based on the empty result. -/
theorem C4_radiation_503_cycle (o : Oracle) (t : Int) (nI nH : String) (rs : List ApiRecord)
    (ha : o (mkReq "airquality" "9" "1,3,6,23,34,37,41,81,82" (t - 3) t) 0
      = AttemptOutcome.ok rs)
    (hr0 : o (mkReq "radiation" "45" "80" (t - 3) t) 0 = AttemptOutcome.non200 503)
    (hr1 : o (mkReq "radiation" "45" "80" (t - 3) t) 1 = AttemptOutcome.non200 503)
    (hr2 : o (mkReq "radiation" "45" "80" (t - 3) t) 2 = AttemptOutcome.non200 503) :
    (async_update_data o ["airquality", "radiation"]
        [("airquality", "9"), ("radiation", "45")] t nI nH initialState).outcome =
      Except.ok [("airquality", processRecords rs nH t), ("radiation", [])] ∧
    ∃ en, lookupAssoc (async_update_data o ["airquality", "radiation"]
        [("airquality", "9"), ("radiation", "45")] t nI nH initialState).state.apiStatus
        "radiation" = some en ∧
      en.status = some "no_data" ∧ en.http_status = some 503 := by
  have hs1 : ",".intercalate [toString (1 : Nat), toString (3 : Nat), toString (6 : Nat),
      toString (23 : Nat), toString (34 : Nat), toString (37 : Nat), toString (41 : Nat),
      toString (81 : Nat), toString (82 : Nat)] = "1,3,6,23,34,37,41,81,82" := rfl
  have hs2 : ",".intercalate [toString (80 : Nat)] = "80" := rfl
  simp [mkReq, DATA_TYPE_TO_API_TYPE, DATA_TYPE_AIR_QUALITY, DATA_TYPE_RADIATION,
    DATA_TYPE_POLLEN, lookupAssoc] at ha hr0 hr1 hr2
  by_cases hres : (processRecords rs nH t).isEmpty <;>
    simp [async_update_data, cycleLoop, get_station_indicators, parsePyInt, parseDigits,
      parseDigitsAux, lookupAssoc, STATIONS, AIR_QUALITY_STATIONS, RADIATION_STATIONS,
      POLLEN_STATIONS, DATA_TYPE_AIR_QUALITY, DATA_TYPE_RADIATION, DATA_TYPE_POLLEN,
      fetch_data_for_date_range, fetchAttempts, MAX_RETRIES, mkReq, DATA_TYPE_TO_API_TYPE,
      EXTENDED_DATA_WINDOW, ha, hr0, hr1, hr2, hres, hs1, hs2, setAssoc, initialState,
      updStatus, updAssoc]

/-- Counterexample to C4 as stated: in the three-503 radiation scenario the
radiation diagnostics entry ends the cycle as
`{status: "no_data", http_status: 503, last_checked: ...}` — its status is
neither `connection_error` nor `error` as the claim requires. -/
theorem C4_counterexample :
    lookupAssoc (async_update_data oracleRad503 ["airquality", "radiation"]
        [("airquality", "9"), ("radiation", "45")] 0 "ISO" "HMS" initialState).state.apiStatus
        "radiation" =
      some ⟨some "no_data", none, some 503, some "ISO"⟩ ∧
    (some "no_data" : Option String) ≠ some "connection_error" ∧
    (some "no_data" : Option String) ≠ some "error" := by
  refine ⟨rfl, by decide, by decide⟩

/-- Witness for C4: the concrete all-503 radiation oracle with one PM2.5
record for air quality. -/
theorem C4_witness :
    (async_update_data oracleRad503 ["airquality", "radiation"]
        [("airquality", "9"), ("radiation", "45")] 0 "ISO" "HMS" initialState).outcome =
      Except.ok [("airquality", processRecords [recPM25] "HMS" 0), ("radiation", [])] ∧
    ∃ en, lookupAssoc (async_update_data oracleRad503 ["airquality", "radiation"]
        [("airquality", "9"), ("radiation", "45")] 0 "ISO" "HMS" initialState).state.apiStatus
        "radiation" = some en ∧
      en.status = some "no_data" ∧ en.http_status = some 503 :=
  C4_radiation_503_cycle oracleRad503 0 "ISO" "HMS" [recPM25] rfl rfl rfl rfl

/-- Claim C5, amended: in the historical fallback search as invoked by the
orchestrator (initial window `today - 3 .. today`), every issued request
either starts no earlier than `MAX_HISTORICAL_DAYS` (7) days before today
or is the one extra re-fetch of the previously recorded last-successful
window `(d - 3, d)` — issued only when the whole horizon was empty and a
prior last-successful date `d` exists, and possibly starting earlier than 7
days back (see the counterexample).  The backward walk itself visits the
windows strictly most-recent-to-oldest and returns at the first non-empty
window: when step `j` is the first hit, the result is exactly that window's
fetch result (no merging), the trace is exactly the initial fetch followed
by the walk fetches for `days_back = 4 .. j` in that order (no older window
is queried), and the window's end date is recorded. -/
theorem C5_historical_window_discipline (o : Oracle) (dtc sid istr : String) (t : Int)
    (nh : String) (st : ApiStatusMap) (lsd : List (String × Int)) :
    (∀ dt2 req i, FetchEvent.attempt dt2 req i ∈
        (fetch_with_historical_fallback o dtc sid istr (t - (EXTENDED_DATA_WINDOW : Int)) t t
          nh st lsd).events →
      t - (MAX_HISTORICAL_DAYS : Int) ≤ req.rangeStart ∨
      ∃ d, lookupAssoc lsd dtc = some d ∧
        req = mkReq dtc sid istr (d - (EXTENDED_DATA_WINDOW : Int)) d) ∧
    (∀ j, j ∈ daysBackRange →
      hasValidData (initResultOf o dtc sid istr t nh) = false →
      (∀ db ∈ daysBackRange, db < j →
        hasValidData (walkResultOf o dtc sid istr t nh db) = false) →
      hasValidData (walkResultOf o dtc sid istr t nh j) = true →
      (fetch_with_historical_fallback o dtc sid istr (t - (EXTENDED_DATA_WINDOW : Int)) t t nh
        st lsd).result = walkResultOf o dtc sid istr t nh j ∧
      (fetch_with_historical_fallback o dtc sid istr (t - (EXTENDED_DATA_WINDOW : Int)) t t nh
        st lsd).lastSuccessfulDates =
        setAssoc lsd dtc (t - ((j : Int) - (EXTENDED_DATA_WINDOW : Int))) ∧
      (fetch_with_historical_fallback o dtc sid istr (t - (EXTENDED_DATA_WINDOW : Int)) t t nh
        st lsd).events = initEventsOf o dtc sid istr t nh ++
        concatEvents (walkEventsOf o dtc sid istr t nh)
          (List.range' (EXTENDED_DATA_WINDOW + 1) (j - EXTENDED_DATA_WINDOW))) := by
  constructor
  · intro dt2 req i hev
    rcases fallback_events_shape o dtc sid istr (t - (EXTENDED_DATA_WINDOW : Int)) t t nh st
        lsd (FetchEvent.attempt dt2 req i) hev with
      h | ⟨i', h⟩ | ⟨db, hmem, i', h⟩ | ⟨d, hd, i', h⟩
    · exact absurd h (by simp)
    · injection h with h1 h2 h3
      subst h2
      left
      simp [mkReq, MAX_HISTORICAL_DAYS, EXTENDED_DATA_WINDOW]
      omega
    · injection h with h1 h2 h3
      subst h2
      left
      have hdb : db = 4 ∨ db = 5 ∨ db = 6 ∨ db = 7 := by simpa [daysBackRange_eq] using hmem
      simp [mkReq, MAX_HISTORICAL_DAYS]
      rcases hdb with rfl | rfl | rfl | rfl <;> omega
    · injection h with h1 h2 h3
      subst h2
      exact Or.inr ⟨d, hd, rfl⟩
  · intro j hj hinit hbefore hhit
    exact fallback_first_hit o dtc sid istr t nh st lsd j hj hinit hbefore hhit

/-- Counterexample to C5 as stated: with a stale last-successful date 20
days back and every window empty, the search issues a request whose range
starts 23 days before today — earlier than `MAX_HISTORICAL_DAYS` (7) days,
contradicting "no queried date range starts earlier than 7 days before
today". -/
theorem C5_counterexample :
    FetchEvent.attempt "pollen" (mkReq "pollen" "23" "48" (-23) (-20)) 0 ∈
      (fetch_with_historical_fallback oracleAllEmpty "pollen" "23" "48" (-3) 0 0 "HMS" []
        [("pollen", -20)]).events ∧
    (mkReq "pollen" "23" "48" (-23) (-20)).rangeStart < 0 - (MAX_HISTORICAL_DAYS : Int) := by
  refine ⟨by decide, by decide⟩

/-- Witness for C5: with the day-5-back window the first non-empty one, the
search returns exactly that window's result, records its end date (day 2
back), and the trace is the initial fetch followed by the walk fetches for
`days_back = 4, 5` only. -/
theorem C5_witness :
    (fetch_with_historical_fallback oraclePollenDay5 "pollen" "23" "48"
        ((0 : Int) - (EXTENDED_DATA_WINDOW : Int)) 0 0 "HMS" [] []).result =
      walkResultOf oraclePollenDay5 "pollen" "23" "48" 0 "HMS" 5 ∧
    (fetch_with_historical_fallback oraclePollenDay5 "pollen" "23" "48"
        ((0 : Int) - (EXTENDED_DATA_WINDOW : Int)) 0 0 "HMS" [] []).lastSuccessfulDates =
      setAssoc [] "pollen" ((0 : Int) - ((5 : Int) - (EXTENDED_DATA_WINDOW : Int))) ∧
    (fetch_with_historical_fallback oraclePollenDay5 "pollen" "23" "48"
        ((0 : Int) - (EXTENDED_DATA_WINDOW : Int)) 0 0 "HMS" [] []).events =
      initEventsOf oraclePollenDay5 "pollen" "23" "48" 0 "HMS" ++
        concatEvents (walkEventsOf oraclePollenDay5 "pollen" "23" "48" 0 "HMS")
          (List.range' (EXTENDED_DATA_WINDOW + 1) (5 - EXTENDED_DATA_WINDOW)) :=
  (C5_historical_window_discipline oraclePollenDay5 "pollen" "23" "48" 0 "HMS" [] []).2 5
    (by decide) (by decide) (by decide) (by decide)

/-- Claim C6, amended: for pollen, when the current 3-day window is empty
and the first non-empty window of the backward walk is the one at
`days_back = 5` — which in the code is the 3-day-wide window
`(today - 5, today - 2)`, not a single-day window — the fallback search
returns exactly that window's fetched CategoryResult and records the
window's end date, 2 days back, as the category's last-successful date. -/
theorem C6_pollen_day5_fallback (o : Oracle) (sid istr : String) (t : Int) (nh : String)
    (st : ApiStatusMap) (lsd : List (String × Int))
    (hinit : hasValidData (initResultOf o DATA_TYPE_POLLEN sid istr t nh) = false)
    (hb4 : hasValidData (walkResultOf o DATA_TYPE_POLLEN sid istr t nh 4) = false)
    (hhit : hasValidData (walkResultOf o DATA_TYPE_POLLEN sid istr t nh 5) = true) :
    (fetch_with_historical_fallback o DATA_TYPE_POLLEN sid istr
        (t - (EXTENDED_DATA_WINDOW : Int)) t t nh st lsd).result =
      fetchResultOf o DATA_TYPE_POLLEN sid istr (t - 5) (t - 2) nh ∧
    (fetch_with_historical_fallback o DATA_TYPE_POLLEN sid istr
        (t - (EXTENDED_DATA_WINDOW : Int)) t t nh st lsd).lastSuccessfulDates =
      setAssoc lsd DATA_TYPE_POLLEN (t - 2) := by
  have hb : ∀ db ∈ daysBackRange, db < 5 →
      hasValidData (walkResultOf o DATA_TYPE_POLLEN sid istr t nh db) = false := by
    intro db hdb hlt
    have hdb4 : db = 4 ∨ db = 5 ∨ db = 6 ∨ db = 7 := by simpa [daysBackRange_eq] using hdb
    rcases hdb4 with rfl | rfl | rfl | rfl
    · exact hb4
    · omega
    · omega
    · omega
  obtain ⟨h1, h2, _⟩ := fallback_first_hit o DATA_TYPE_POLLEN sid istr t nh st lsd 5
    (by decide) hinit hb hhit
  constructor
  · rw [h1]
    simp [walkResultOf, EXTENDED_DATA_WINDOW]
  · rw [h2]
    norm_num [EXTENDED_DATA_WINDOW]

/-- Counterexample to C6 as stated: the window queried at `days_back = 5`
spans from day 5 back to day 2 back (its end minus its start is 3 days, so
it is not a single-day window), and the recorded last-successful date is
the window's end (2 days back), not the day 5 back. -/
theorem C6_counterexample :
    FetchEvent.attempt "pollen" (mkReq "pollen" "23" "48" (-5) (-2)) 0 ∈
      (fetch_with_historical_fallback oraclePollenDay5 "pollen" "23" "48" (-3) 0 0 "HMS" []
        []).events ∧
    (mkReq "pollen" "23" "48" (-5) (-2)).rangeEnd -
      (mkReq "pollen" "23" "48" (-5) (-2)).rangeStart = 3 ∧
    lookupAssoc (fetch_with_historical_fallback oraclePollenDay5 "pollen" "23" "48" (-3) 0 0
        "HMS" [] []).lastSuccessfulDates "pollen" = some (-2) ∧
    ((-2 : Int) ≠ -5) := by
  refine ⟨by decide, by decide, rfl, by decide⟩

/-- Witness for C6: the concrete oracle whose day-5-back window holds one
birch record. -/
theorem C6_witness :
    (fetch_with_historical_fallback oraclePollenDay5 DATA_TYPE_POLLEN "23" "48"
        ((0 : Int) - (EXTENDED_DATA_WINDOW : Int)) 0 0 "HMS" [] []).result =
      fetchResultOf oraclePollenDay5 DATA_TYPE_POLLEN "23" "48" ((0 : Int) - 5) ((0 : Int) - 2)
        "HMS" ∧
    (fetch_with_historical_fallback oraclePollenDay5 DATA_TYPE_POLLEN "23" "48"
        ((0 : Int) - (EXTENDED_DATA_WINDOW : Int)) 0 0 "HMS" [] []).lastSuccessfulDates =
      setAssoc [] DATA_TYPE_POLLEN ((0 : Int) - 2) :=
  C6_pollen_day5_fallback oraclePollenDay5 "23" "48" 0 "HMS" [] []
    (by decide) (by decide) (by decide)

end EstonianAirQuality
